import Mathlib

/-!
Shallow embedding of the place-verification and deduplication pipeline of the
Planner backend (src/backend/main.py, src/backend/kakao_place_service.py,
src/backend/kakao_location_validator.py), together with theorems settling the
frozen claims about it.

Python strings are modelled as Lean `String` (Unicode code points, so
`String.length` agrees with Python `len`), floats as `ℚ` (every literal the
code uses is a decimal fraction and the code only adds, multiplies, divides
and compares them), dicts as records with `Option` fields for keys that are
only sometimes present, and network calls as explicit oracle parameters of
type `Except String _` (the `Except.error` case models a raised
transport-level exception caught at the call site).
-/

namespace Planner

/-! ### Python string primitives -/

/-- Python `sub in s` (substring containment; the empty needle is contained
everywhere, as in Python). -/
def listHasSub (needle : List Char) : List Char → Bool
  | [] => needle.isEmpty
  | c :: cs => needle.isPrefixOf (c :: cs) || listHasSub needle cs

/-- Python `sub in s` on strings. -/
def strHasSub (s sub : String) : Bool :=
  listHasSub sub.toList s.toList

/-- Python whitespace test used by `str.split()` / `str.strip()` (the code
only ever meets spaces, but tabs and newlines behave the same way). -/
def isPySpace (c : Char) : Bool :=
  c = ' ' || c = '\t' || c = '\n' || c = '\r'

/-- Python `str.split()` (no argument): split on runs of whitespace,
discarding empty pieces.  Structural recursion on a fuel argument (each step
consumes at least one character, so `fuel = length` never runs out); this
keeps the definition kernel-reducible. -/
def pySplitCharsF : Nat → List Char → List String
  | 0, _ => []
  | _, [] => []
  | fuel + 1, c :: cs =>
    if isPySpace c then pySplitCharsF fuel cs
    else
      String.mk (c :: cs.takeWhile (fun d => !isPySpace d)) ::
        pySplitCharsF fuel (cs.dropWhile (fun d => !isPySpace d))

/-- Python `str.split()` on a `String`. -/
def pySplit (s : String) : List String :=
  pySplitCharsF s.toList.length s.toList

/-- Python `str.strip()`: drop whitespace from both ends. -/
def pyStrip (s : String) : String :=
  String.mk (((s.toList.dropWhile isPySpace).reverse.dropWhile isPySpace).reverse)

/-- Python `str.lower()`.  The repository's data is ASCII plus Hangul, and
Hangul has no case, so per-character ASCII lowering coincides with Python's
lowering on every string the code handles. -/
def pyLower (s : String) : String :=
  String.mk (s.toList.map Char.toLower)

/-- Python `str.replace(pat, rep)`: replace every non-overlapping occurrence
left to right.  Structural recursion on fuel (each step consumes at least one
character; the code never calls `replace` with an empty pattern). -/
def replaceCharsF (pat rep : List Char) : Nat → List Char → List Char
  | 0, l => l
  | _, [] => []
  | fuel + 1, c :: cs =>
    if pat ≠ [] && pat.isPrefixOf (c :: cs) then
      rep ++ replaceCharsF pat rep fuel ((c :: cs).drop pat.length)
    else
      c :: replaceCharsF pat rep fuel cs

/-- Python `s.replace(pat, rep)` on `String`. -/
def pyReplace (s pat rep : String) : String :=
  String.mk (replaceCharsF pat.toList rep.toList s.toList.length s.toList)

/-- Python `a or b` on strings (empty string is falsy). -/
def pyOrElse (a b : String) : String := if a ≠ "" then a else b

/-- First-occurrence deduplication; models iteration over a Python `set`
built from a list of characters (only membership and cardinality of the
result are ever used, both of which are insertion-order independent). -/
def dedupCharsAux : List Char → List Char → List Char
  | [], _ => []
  | c :: cs, seen =>
    if seen.contains c then dedupCharsAux cs seen
    else c :: dedupCharsAux cs (c :: seen)

/-- The set of characters of a string, as a duplicate-free list
(Python `set(s)`). -/
def charSet (s : String) : List Char := dedupCharsAux s.toList []

/-- A Hangul syllable (the Python character class `[가-힣]`, U+AC00–U+D7A3). -/
def isHangulSyl (c : Char) : Bool :=
  0xAC00 ≤ c.toNat && c.toNat ≤ 0xD7A3

/-- Python `\w` (regex word character) restricted to the alphabets the
repository actually uses: ASCII alphanumerics, underscore, Hangul syllables. -/
def isPyWordChar (c : Char) : Bool :=
  c.isAlphanum || c = '_' || isHangulSyl c

/-! ### Data model

`PlaceDoc` is one document of the Kakao Local keyword-search response
(`data['documents'][i]`); the wrapper dicts built by
`KakaoLocalService.search_place` and `KakaoPlaceService.search_places` carry
exactly these fields under renamed keys (`name := place_name`,
`address := address_name`, `road_address := road_address_name`,
`category := category_name`, …), so one record serves for both.  The
coordinate strings `x`/`y` are modelled as `Option ℚ` (`none` for the empty
string, which Python treats as falsy and converts to `None`). -/
structure PlaceDoc where
  place_name : String := ""
  address_name : String := ""
  road_address_name : String := ""
  category_name : String := ""
  phone : String := ""
  place_url : String := ""
  x : Option ℚ := none
  y : Option ℚ := none
deriving DecidableEq

/-- An itinerary activity (`activity` dict in `main.py`).  The base fields
are always present in the generated JSON; the enrichment fields written by
`verify_and_enrich_location` are `Option`s whose `none` models an absent
dict key.  `coordinates` is the dict `{'lat': …, 'lng': …}` (each value may
be `None` when the search result had empty coordinate strings). -/
structure Activity where
  time : String := ""
  title : String := ""
  location : String := ""
  description : String := ""
  duration : String := ""
  verified : Option Bool := none
  verified_name : Option String := none
  real_address : Option String := none
  place_category : Option String := none
  place_telephone : Option String := none
  coordinates : Option (Option ℚ × Option ℚ) := none
deriving DecidableEq

/-- One day of the itinerary (`day` dict: `{'day': n, 'activities': [...]}`;
the `'day'` key may be missing, hence `Option`). -/
structure DayPlan where
  day : Option Nat := none
  activities : List Activity := []
deriving DecidableEq

/-- `trip_data["itinerary"]`: the ordered list of days. -/
abbrev Trip := List DayPlan

/-! ### `KakaoLocalService.search_place` (main.py 643-698)

The HTTP transport is an explicit oracle `transport : String → Except String
(List PlaceDoc)` mapping the final query string to either the parsed
`documents` array or a raised `requests` exception caught on line 696. -/

/-- The query string actually sent: `f"{region} {query}"` when a region is
given (main.py 667-669, and identically kakao_place_service.py 29). -/
def searchQuery (query region : String) : String :=
  if region ≠ "" then region ++ " " ++ query else query

/-- The four shapes of `search_place`'s return value: Python `None` (no API
key, line 654-656), `{'found': False, 'query': …}` (empty documents, line
692-694), `{'found': False, 'error': …}` (caught transport exception, line
696-698) and `{'found': True, …first document…}` (line 678-691). -/
inductive SearchOutcome where
  | noKey : SearchOutcome
  | notFound : SearchOutcome
  | transErr : String → SearchOutcome
  | ok : PlaceDoc → SearchOutcome
deriving DecidableEq

/-- `KakaoLocalService.search_place(query, region)`. -/
def searchPlace (apiKey : Option String)
    (transport : String → Except String (List PlaceDoc))
    (query region : String) : SearchOutcome :=
  match apiKey with
  | none => .noKey
  | some _ =>
    match transport (searchQuery query region) with
    | .error e => .transErr e
    | .ok [] => .notFound
    | .ok (d :: _) => .ok d

/-- Python truthiness of `search_result and search_result.get('found')`. -/
def SearchOutcome.isFound : SearchOutcome → Bool
  | .ok _ => true
  | _ => false

/-! ### Relevance filter (`_is_relevant_result`, main.py 717-758) -/

/-- `_extract_core_keywords` (main.py 744-758): erase every character that
is neither a word character nor whitespace, split on whitespace, keep the
words of length ≥ 2. -/
def extractCoreKeywords (text : String) : List String :=
  let cleaned := text.toList.map (fun c => if isPyWordChar c || isPySpace c then c else ' ')
  (pySplitCharsF cleaned.length cleaned).filter (fun w => 2 ≤ w.length)

/-- The `inappropriate_categories` table of `_is_relevant_result`
(main.py 732-735). -/
def inappropriateCategories : List String :=
  ["요양", "병원", "의료", "클리닉", "한의원", "치과", "약국",
   "부동산", "학원", "학교", "사무실", "회사"]

/-- `_is_relevant_result(search_keyword, search_result, original_title)`
(main.py 717-742), taking the result's `name` and `category` fields
directly. -/
def isRelevantResult (search_keyword : String) (result_name result_category : String)
    (original_title : String) : Bool :=
  let rn := pyLower result_name
  let rc := pyLower result_category
  let original_keywords := extractCoreKeywords (pyLower original_title)
  let search_keywords := extractCoreKeywords (pyLower search_keyword)
  if (original_keywords ++ search_keywords).any (fun k => 2 < k.length && strHasSub rn k) then
    true
  else if inappropriateCategories.any (fun w => strHasSub rn w || strHasSub rc w) then
    false
  else
    true

/-! ### `verify_and_enrich_location` (main.py 939-1044)

The search-keyword list is built on lines 955-991 from the activity's
`location` and `title` with regex suffix heuristics
(`_extract_place_name_from_title`, `_is_detailed_address`,
`_is_real_place_name`, `_clean_place_name`).  The embedding takes that list
as an explicit argument `searchKeywords`; every universal theorem below
quantifies over all possible lists, hence in particular over the one the
source builds. -/

/-- The keyword loop of `verify_and_enrich_location` (main.py 998-1015):
skip empty/short keywords, search, and keep the first found *and* relevant
result, remembering the successful keyword. -/
def findSearchResult (apiKey : Option String)
    (transport : String → Except String (List PlaceDoc))
    (region title : String) : List String → Option (String × PlaceDoc)
  | [] => none
  | kw :: rest =>
    if kw = "" || (pyStrip kw).length < 2 then
      findSearchResult apiKey transport region title rest
    else
      match searchPlace apiKey transport kw region with
      | .ok d =>
        if isRelevantResult kw d.place_name d.category_name title then some (kw, d)
        else findSearchResult apiKey transport region title rest
      | _ => findSearchResult apiKey transport region title rest

/-- `verify_and_enrich_location(activity, region)` (main.py 939-1044),
with the keyword list passed in (see section comment). -/
def verifyAndEnrichLocation (apiKey : Option String)
    (transport : String → Except String (List PlaceDoc))
    (region : String) (searchKeywords : List String) (a : Activity) : Activity :=
  match findSearchResult apiKey transport region a.title searchKeywords with
  | some (_, d) =>
    let a1 : Activity :=
      { a with
        verified := some true
        real_address := some (pyOrElse d.road_address_name d.address_name)
        place_category := some d.category_name
        place_telephone := some d.phone
        coordinates := some (d.y, d.x) }
    if d.place_name ≠ "" then
      { a1 with
        verified_name := some d.place_name
        location := pyOrElse d.road_address_name (pyOrElse d.address_name a.location) }
    else a1
  | none =>
    { a with
      verified := some false
      location := "⚠️ " ++ a.location ++ " (검증되지 않은 주소)"
      real_address := some "검증되지 않은 주소입니다" }

/-! ### `KakaoPlaceService.search_places` (kakao_place_service.py 21-67) -/

/-- `search_places(query, region, display)`: empty list when no API key is
configured (line 23-25) or when the request raises (line 65-67); otherwise
the parsed documents. -/
def searchPlaces (apiKey : Option String)
    (transport : String → Except String (List PlaceDoc))
    (query region : String) : List PlaceDoc :=
  match apiKey with
  | none => []
  | some _ =>
    match transport (searchQuery query region) with
    | .error _ => []
    | .ok docs => docs

/-! ### Region validator
(`KakaoPlaceService._validate_address_accuracy`, kakao_place_service.py
353-394) -/

/-- The static `city_districts` table (kakao_place_service.py 359-370). -/
def cityDistricts : List (String × List String) :=
  [("여수", ["여수시"]),
   ("순천", ["순천시"]),
   ("목포", ["목포시"]),
   ("부산", ["중구", "서구", "동구", "영도구", "부산진구", "동래구", "남구", "북구",
            "해운대구", "사하구", "금정구", "강서구", "연제구", "수영구", "사상구", "기장군"]),
   ("서울", ["종로구", "중구", "용산구", "성동구", "광진구", "동대문구", "중랑구", "성북구",
            "강북구", "도봉구", "노원구", "은평구", "서대문구", "마포구", "양천구", "강서구",
            "구로구", "금천구", "영등포구", "동작구", "관악구", "서초구", "강남구", "송파구",
            "강동구"]),
   ("대구", ["중구", "동구", "서구", "남구", "북구", "수성구", "달서구", "달성군"]),
   ("인천", ["중구", "동구", "미추홀구", "연수구", "남동구", "부평구", "계양구", "서구",
            "강화군", "옹진군"]),
   ("광주", ["동구", "서구", "남구", "북구", "광산구"]),
   ("대전", ["동구", "중구", "서구", "유성구", "대덕구"]),
   ("울산", ["중구", "남구", "동구", "북구", "울주군"])]

/-- The table key for a target region:
`target_region.replace('시', '').replace('도', '')`
(kakao_place_service.py 373). -/
def cityKey (target_region : String) : String :=
  pyReplace (pyReplace target_region "시" "") "도" ""

/-- The valid-district list for a target region
(`city_districts.get(target_city, [])`, kakao_place_service.py 374). -/
def validDistricts (target_region : String) : List String :=
  ((cityDistricts.lookup (cityKey target_region)).getD [])

/-- `_validate_address_accuracy(address, target_region)`
(kakao_place_service.py 353-394): vacuously true on empty inputs or an
unknown city; otherwise false exactly when some whitespace token of the
address contains the district marker `구` or the county marker `군` but is
not in the city's valid-district list. -/
def validateAddressAccuracy (address target_region : String) : Bool :=
  if address = "" || target_region = "" then true
  else
    let valid_districts := validDistricts target_region
    if valid_districts = [] then true
    else
      !((pySplit address).any (fun part =>
        (strHasSub part "구" || strHasSub part "군") &&
          !(valid_districts.contains (pyReplace part " " ""))))

/-! ### Confidence scorers
(`KakaoPlaceService._calculate_relevance_score`, kakao_place_service.py
235-291, and `KakaoLocationValidator._calculate_kakao_local_confidence`,
kakao_location_validator.py 294-333).  Python floats are modelled as `ℚ`;
every constant and operation the code uses is exact in decimal, so the two
agree on all inputs exercised here. -/

/-- `tourism_keywords` (kakao_place_service.py 277). -/
def tourismKeywords : List String :=
  ["관광", "명소", "문화", "체험", "공원", "박물관", "미술관", "케이블카", "전망대", "해상"]

/-- `irrelevant_in_name` (kakao_place_service.py 283). -/
def irrelevantInName : List String := ["정비", "수리", "부동산", "병원", "의원"]

/-- The discrete observations `_calculate_relevance_score` makes of its
inputs, split off so that they stay kernel-computable (the arithmetic over
them is pure `ℚ` and lives in `relevanceScoreOfSig`). -/
structure RelevanceSig where
  /-- `keyword_normalized in place_normalized` (line 244). -/
  hasSub : Bool
  /-- `keyword_normalized == place_normalized` (line 245). -/
  isEq : Bool
  /-- `place_normalized.startswith(keyword_normalized)` (line 248). -/
  isStart : Bool
  /-- `len(keyword_normalized)` (line 253). -/
  kwLen : Nat
  /-- `len(place_normalized)` (line 253). -/
  plLen : Nat
  /-- `matched_words`: keyword words of length ≥ 2 having an exactly equal
  (case-folded) place word (lines 261-274). -/
  matched : Nat
  /-- some tourism keyword occurs in the category (lines 277-278). -/
  catHit : Bool
  /-- how many disqualifying terms occur in the place name (lines 283-287,
  each subtracts 0.5). -/
  penaltyCount : Nat
deriving DecidableEq

/-- The observations of `_calculate_relevance_score(keyword, place_name,
place_category)` (kakao_place_service.py 235-291). -/
def relevanceSig (keyword place_name place_category : String) : RelevanceSig :=
  let keyword_normalized := pyLower (pyReplace keyword " " "")
  let place_normalized := pyLower (pyReplace place_name " " "")
  let keyword_words := (pySplit keyword).filter (fun w => 2 ≤ w.length)
  let place_words := (pySplit place_name).filter (fun w => 2 ≤ w.length)
  { hasSub := strHasSub place_normalized keyword_normalized
    isEq := keyword_normalized = place_normalized
    isStart := keyword_normalized.toList.isPrefixOf place_normalized.toList
    kwLen := keyword_normalized.length
    plLen := place_normalized.length
    matched := (keyword_words.filter
      (fun kw => place_words.any (fun pw => pyLower pw = pyLower kw))).length
    catHit := tourismKeywords.any (fun w => strHasSub place_category w)
    penaltyCount := (irrelevantInName.filter (fun w => strHasSub place_normalized w)).length }

/-- The arithmetic of `_calculate_relevance_score` over the observations:
name-match tier (lines 243-259), +0.3 per matched word (line 272), +0.2 for
a tourism category (line 279), −0.5 per disqualifying term (line 286), then
clamped to [0, 1] (line 289). -/
def relevanceScoreOfSig (s : RelevanceSig) : ℚ :=
  let nameScore : ℚ :=
    if s.hasSub then
      if s.isEq then 1
      else if s.isStart then 0.9
      else if ((s.kwLen : ℚ) / s.plLen) > 0.5 then 0.7
      else 0.4
    else 0
  max 0 (min (nameScore + 0.3 * s.matched + (if s.catHit then 0.2 else 0)
    - 0.5 * s.penaltyCount) 1)

/-- `_calculate_relevance_score(keyword, place_name, place_category)`
(kakao_place_service.py 235-291). -/
def relevanceScore (keyword place_name place_category : String) : ℚ :=
  relevanceScoreOfSig (relevanceSig keyword place_name place_category)

/-- The length share of the candidate in the place name (the `ratio` of
kakao_place_service.py line 253), the quantity the spec calls the
name-match ratio. -/
def nameMatchShare (keyword place_name : String) : ℚ :=
  ((pyLower (pyReplace keyword " " "")).length : ℚ) /
    ((pyLower (pyReplace place_name " " "")).length : ℚ)

/-- `tourism_categories` (kakao_location_validator.py 321). -/
def kakaoTourismCategories : List String :=
  ["관광", "명소", "문화", "체험", "공원", "박물관", "미술관", "해변", "산", "사찰"]

/-- `_calculate_kakao_local_confidence(search_term, local_result, region)`
(kakao_location_validator.py 294-333); the `local_result` dict is passed as
its four used fields. -/
def kakaoLocalConfidence (search_term : String)
    (place_name category_name address_name road_address_name : String)
    (region : String) : ℚ :=
  let place_name := pyLower place_name
  let search_lower := pyLower search_term
  let nameScore : ℚ :=
    if strHasSub place_name search_lower then
      if search_lower = place_name then 0.6
      else 0.6 * ((search_lower.length : ℚ) / place_name.length)
    else 0
  let categoryScore : ℚ :=
    if kakaoTourismCategories.any (fun c => strHasSub (pyLower category_name) c) then 0.2
    else 0
  let regionScore : ℚ :=
    if region ≠ "" then
      if strHasSub (pyLower (address_name ++ " " ++ road_address_name)) (pyLower region) then 0.2
      else 0
    else 0.1
  min (nameScore + categoryScore + regionScore) 1

/-! ### Deduplication engine (main.py 1399-1617)

`_extract_location_keywords` (main.py 1214-1397) builds an activity's
location-key set from regex suffix patterns, an alias table and a
same-physical-spot combination table; the dedup pass below takes that
extractor as an explicit parameter `extractKeys`, and every universal
theorem quantifies over all extractors (so in particular the source's).
The *similarity* test `_is_similar_location`, which the claims are about,
is embedded in full, including the shared-core-place-name regexes of
`_extract_core_location_parts`. -/

/-- Alternatives of the first core-place pattern
`([가-힣]{2,})(해수욕장|해변|…|도)` (main.py 1437), in source order. -/
def corePatternSuffixes1 : List String :=
  ["해수욕장", "해변", "시장", "궁", "사", "탑", "타워", "공원", "박물관", "미술관",
   "폭포", "산", "봉", "다리", "항", "마을", "거리", "동", "구", "섬", "도"]

/-- Alternatives of the second core-place pattern
`([가-힣]{2,})(문화마을|관광지|전망대|케이블카|아쿠아리움|테마파크)`
(main.py 1438). -/
def corePatternSuffixes2 : List String :=
  ["문화마을", "관광지", "전망대", "케이블카", "아쿠아리움", "테마파크"]

/-- `[m, m-1, …, 2]`: the candidate lengths a greedy `[가-힣]{2,}` tries for
its match, longest first (regex backtracking order). -/
def greedyLens : Nat → List Nat
  | 0 => []
  | 1 => []
  | n + 2 => (n + 2) :: greedyLens (n + 1)

/-- One attempt of `([가-힣]{2,})(alt₁|alt₂|…)` at the head of `cs`: try the
longest Hangul-run length first and, for each length, the alternatives in
order; on success return the captured group (the Hangul stem) and the
remaining text after the whole match. -/
def coreMatchAt (alts : List (List Char)) (cs : List Char) : Option (List Char × List Char) :=
  let m := (cs.takeWhile isHangulSyl).length
  (greedyLens m).findSome? (fun k =>
    alts.findSome? (fun alt =>
      if alt.isPrefixOf (cs.drop k) then some (cs.take k, cs.drop (k + alt.length))
      else none))

/-- `re.findall` scan for the core-place pattern: left to right,
non-overlapping, advancing one character where no match starts.  Structural
on fuel (every step consumes at least one character, so `fuel = length`
never runs out). -/
def coreScan (alts : List (List Char)) : Nat → List Char → List (List Char)
  | 0, _ => []
  | _, [] => []
  | fuel + 1, c :: cs =>
    match coreMatchAt alts (c :: cs) with
    | some (core, rest) => core :: coreScan alts fuel rest
    | none => coreScan alts fuel cs

/-- All group-1 captures of one core-place pattern over a string. -/
def findCoreGroups (alts : List String) (text : String) : List String :=
  (coreScan (alts.map String.toList) text.toList.length text.toList).map String.mk

/-- The stems one keyword contributes in `_extract_core_location_parts`
(main.py 1431-1458): both patterns are run and the group-1 captures
collected into a set. -/
def coreParts (keyword : String) : List String :=
  findCoreGroups corePatternSuffixes1 keyword ++ findCoreGroups corePatternSuffixes2 keyword

/-- `_extract_core_location_parts(keyword1, keyword2)` (main.py 1431-1458):
the common core place names of the two keywords (`cores1 & cores2`). -/
def extractCoreLocationParts (keyword1 keyword2 : String) : List String :=
  (coreParts keyword1).filter (fun c => (coreParts keyword2).contains c)

/-- The `same_spots` alias-group table of `_is_same_tourist_spot`
(main.py 1463-1506); Python sets become lists (only membership is used). -/
def sameSpots : List (List String) :=
  [["남산타워", "n서울타워", "서울타워", "남산"],
   ["경복궁", "경복궁궁궐", "경복궁앞"],
   ["창덕궁", "창덕궁궁궐", "비원"],
   ["명동", "명동거리", "명동쇼핑"],
   ["홍대", "홍대거리", "홍익대학교앞"],
   ["이태원", "이태원거리", "이태원역"],
   ["강남", "강남역", "강남구"],
   ["동대문", "동대문디자인플라자", "ddp"],
   ["인사동", "인사동거리", "인사동문화거리"],
   ["해운대", "해운대해수욕장", "해운대해변", "해운대비치"],
   ["광안리", "광안리해수욕장", "광안리해변", "광안리비치"],
   ["자갈치시장", "자갈치", "자갈치수산시장"],
   ["감천문화마을", "감천마을", "감천색깔마을"],
   ["태종대", "태종대유원지", "태종대공원"],
   ["부산타워", "부산타워전망대", "용두산공원타워"],
   ["국제시장", "부산국제시장", "국제시장거리"],
   ["성산일출봉", "성산봉", "일출봉"],
   ["한라산", "백록담", "한라산백록담"],
   ["천지연폭포", "천지연", "천지연계곡"],
   ["협재해수욕장", "협재해변", "협재비치"],
   ["우도", "우도섬", "소가섬"],
   ["경포해변", "경포해수욕장", "경포대", "경포대해변"],
   ["정동진", "정동진해변", "정동진역"],
   ["오죽헌", "율곡이이생가", "신사임당생가"],
   ["오동도", "동백섬", "오동도공원"],
   ["여수해상케이블카", "해상케이블카", "돌산케이블카"],
   ["여수밤바다", "여수항", "여수신항"],
   ["불국사", "불국사절", "불국사사찰"],
   ["석굴암", "석굴암석굴", "석굴암불상"],
   ["첨성대", "경주첨성대", "신라첨성대"],
   ["안압지", "동궁과월지", "경주안압지"]]

/-- `_is_same_tourist_spot(keyword1, keyword2)` (main.py 1460-1512). -/
def isSameTouristSpot (keyword1 keyword2 : String) : Bool :=
  sameSpots.any (fun g => g.contains keyword1 && g.contains keyword2)

/-- The character-set overlap test of `_is_similar_location`
(main.py 1419-1423): `len(set(k1) & set(k2)) / max(len(set(k1)),
len(set(k2))) >= 0.6`, stated with denominators cleared (`5·|∩| ≥ 3·max`,
exact because both strings are nonempty there). -/
def charOverlapSimilar (keyword1 keyword2 : String) : Bool :=
  let s1 := charSet keyword1
  let s2 := charSet keyword2
  let common := s1.filter (fun c => s2.contains c)
  3 * max s1.length s2.length ≤ 5 * common.length

/-- `_is_similar_location(keyword1, keyword2)` (main.py 1399-1429). -/
def isSimilarLocation (keyword1 keyword2 : String) : Bool :=
  if keyword1 = "" || keyword2 = "" then false
  else if keyword1 = keyword2 then true
  else if 2 ≤ keyword1.length && 2 ≤ keyword2.length &&
      (strHasSub keyword2 keyword1 || strHasSub keyword1 keyword2) then true
  else if !(extractCoreLocationParts keyword1 keyword2).isEmpty then true
  else if 3 ≤ keyword1.length && 3 ≤ keyword2.length &&
      charOverlapSimilar keyword1 keyword2 then true
  else isSameTouristSpot keyword1 keyword2

/-- The per-key duplicate test of `remove_duplicate_locations`
(main.py 1550-1561): the key is already registered, or is similar to some
registered key. -/
def keyMatchesRegistry (key : String) (visited : List String) : Bool :=
  (key ≠ "" && visited.contains key) || visited.any (fun v => isSimilarLocation key v)

/-- The duplicate-check loop of `remove_duplicate_locations`
(main.py 1546-1564): scan the activity's key list in order and stop at the
first key that matches the registry, returning it as `duplicate_key`. -/
def checkDuplicate : List String → List String → Option String
  | [], _ => none
  | key :: rest, visited =>
    if keyMatchesRegistry key visited then some key
    else checkDuplicate rest visited

/-- The lodging keywords exempting an activity from verification and dedup
(main.py 1068, 1536, 1720). -/
def lodgingKeywords : List String :=
  ["호텔", "숙박", "체크인", "체크아웃", "hotel", "check-in", "check-out"]

/-- `any(keyword in title.lower() for keyword in […])`. -/
def isLodgingTitle (title : String) : Bool :=
  lodgingKeywords.any (fun k => strHasSub (pyLower title) k)

/-- Registering a key set: add every non-empty key to the visited set
(main.py 1596-1598, 1602-1605, 1607-1610); the registry is modelled as a
list used only through membership. -/
def addKeys (visited : List String) (keys : List String) : List String :=
  visited ++ keys.filter (fun k => k ≠ "")

section DedupPass

-- The location-key extractor `_extract_location_keywords(title, location)`
-- (main.py 1214-1397), taken as a parameter; see the section comment above.
variable (extractKeys : String → String → List String)

-- The replacement collaborator: `replace_single_duplicate_activity`
-- (main.py 1619-1698) as seen from the pass: given the flagged activity and
-- the current registry (the source also passes the whole current trip and
-- the slot indices, used only to build the LLM prompt), it returns the
-- replacement activity, or `none` when the request failed or was unparsable.
variable (oracle : Activity → List String → Option Activity)

/-- One activity step of `remove_duplicate_locations` (main.py 1533-1610):
skip lodging; otherwise compute the key set, check it against the registry,
and either accept (register all keys) or replace via the oracle (register
the replacement's keys on success, the original keys on failure, both
preventing repeat flags).  The `Bool` is the `is_duplicate` flag. -/
def dedupActivity (a : Activity) (visited : List String) :
    Activity × List String × Bool :=
  if isLodgingTitle a.title then (a, visited, false)
  else
    let keys := extractKeys (pyStrip a.title) (pyStrip a.location)
    match checkDuplicate keys visited with
    | some _ =>
      match oracle a visited with
      | some na => (na, addKeys visited (extractKeys na.title na.location), true)
      | none => (a, addKeys visited keys, true)
    | none => (a, addKeys visited keys, false)

/-- The inner activity loop of `remove_duplicate_locations`, also returning
the per-activity duplicate flags. -/
def dedupDay : List Activity → List String → List Activity × List String × List Bool
  | [], visited => ([], visited, [])
  | a :: rest, visited =>
    let r := dedupActivity extractKeys oracle a visited
    let rr := dedupDay rest r.2.1
    (r.1 :: rr.1, rr.2.1, r.2.2 :: rr.2.2)

/-- `remove_duplicate_locations(trip_data, destination)` (main.py
1514-1617): walk the days in order threading the visited registry, which
starts empty per call. -/
def removeDuplicateLocations : Trip → List String → Trip × List String × List (List Bool)
  | [], visited => ([], visited, [])
  | d :: days, visited =>
    let r := dedupDay extractKeys oracle d.activities visited
    let rr := removeDuplicateLocations days r.2.1
    ({ d with activities := r.1 } :: rr.1, rr.2.1, r.2.2 :: rr.2.2)

/-- The trip returned by `remove_duplicate_locations`. -/
def removeDuplicateLocationsTrip (t : Trip) : Trip :=
  (removeDuplicateLocations extractKeys oracle t []).1

end DedupPass

/-- `replace_single_duplicate_activity` (main.py 1619-1698).  `llmResult` is
the parsed JSON of the generation collaborator's answer (`none` when the
call raised or no JSON object could be extracted, in which case the source
falls through to `return None`).  On a parse success the new activity is
verified via `verify_and_enrich_location`; that call mutates the
`new_activity` dict in place and returns the same object, so the
`verified`/fallback branches of lines 1688-1693 both return the updated
record. -/
def replaceSingleDuplicateActivity (apiKey : Option String)
    (transport : String → Except String (List PlaceDoc))
    (kb : String → String → List String)
    (destination : String) (llmResult : Option Activity) : Option Activity :=
  match llmResult with
  | none => none
  | some new_activity =>
    -- `destination.split()[0] if destination else ""`; `headD ""` stands in for
    -- the indexing, which Python only reaches with a non-empty destination.
    let region := if destination ≠ "" then (pySplit destination).headD "" else ""
    let verified_activity :=
      verifyAndEnrichLocation apiKey transport region
        (kb new_activity.title new_activity.location) new_activity
    if verified_activity.verified = some true then some verified_activity
    else some verified_activity

/-! ### `check_final_duplicates` (main.py 1700-1747)

The function only reads the itinerary and builds a list of report strings;
a report is modelled by the data interpolated into its f-string:
`f"Day {day}: '{title}' 중복 (Day {existingDay}와 동일)"` for the exact
title/location match branch (keyword `none`), and
`f"Day {day}: '{title}' 중복 키워드 '{k}' (Day {existingDay}와 중복)"` for
the keyword branch (keyword `some k`).  To make the read-only frame claim
statable, the scan also reassembles the itinerary it traversed and returns
it alongside the reports. -/

/-- The per-activity record appended to `all_locations`
(main.py 1723-1730). -/
structure DupEntry where
  day : Option Nat
  title : String
  location : String
  keywords : List String
deriving DecidableEq

/-- One emitted duplicate report (see section comment). -/
structure DupReport where
  day : Option Nat
  title : String
  existingDay : Option Nat
  keyword : Option String
deriving DecidableEq

section FinalCheck

variable (extractKeys : String → String → List String)

/-- The `all_locations` entry for an activity (main.py 1716-1730). -/
def cfdEntry (dayNum : Option Nat) (a : Activity) : DupEntry :=
  { day := dayNum
    title := pyStrip a.title
    location := pyStrip a.location
    keywords := extractKeys (pyStrip a.title) (pyStrip a.location) }

/-- The body of the `for existing in all_locations` loop (main.py
1732-1743) for one existing entry: an exact (case-folded) title or location
match reports immediately and skips the keyword scan (`continue`);
otherwise the first keyword shared with the existing entry reports
(`break`). -/
def reportsAgainst (e cur : DupEntry) : List DupReport :=
  if pyLower cur.title = pyLower e.title || pyLower cur.location = pyLower e.location then
    [{ day := cur.day, title := cur.title, existingDay := e.day, keyword := none }]
  else
    match cur.keywords.find? (fun k => k ≠ "" && e.keywords.contains k) with
    | some k => [{ day := cur.day, title := cur.title, existingDay := e.day, keyword := some k }]
    | none => []

/-- Activity loop of `check_final_duplicates`: reports, accumulated
`all_locations`, and the traversed activities reassembled. -/
def cfdScanActs (dayNum : Option Nat) :
    List Activity → List DupEntry → List DupReport × List DupEntry × List Activity
  | [], acc => ([], acc, [])
  | a :: rest, acc =>
    if isLodgingTitle (pyStrip a.title) then
      let r := cfdScanActs dayNum rest acc
      (r.1, r.2.1, a :: r.2.2)
    else
      let cur := cfdEntry extractKeys dayNum a
      let reps := acc.flatMap (fun e => reportsAgainst e cur)
      let r := cfdScanActs dayNum rest (acc ++ [cur])
      (reps ++ r.1, r.2.1, a :: r.2.2)

/-- Day loop of `check_final_duplicates`. -/
def cfdScanDays : Trip → List DupEntry → List DupReport × List DupEntry × Trip
  | [], acc => ([], acc, [])
  | d :: days, acc =>
    let r := cfdScanActs extractKeys d.day d.activities acc
    let rr := cfdScanDays days r.2.1
    (r.1 ++ rr.1, rr.2.1, { d with activities := r.2.2 } :: rr.2.2)

/-- `check_final_duplicates(trip_data)` (main.py 1700-1747). -/
def checkFinalDuplicates (t : Trip) : List DupReport :=
  (cfdScanDays extractKeys t []).1

/-- The itinerary as reassembled by the read-only traversal of
`check_final_duplicates`. -/
def checkFinalDuplicatesTraversal (t : Trip) : Trip :=
  (cfdScanDays extractKeys t []).2.2

end FinalCheck

section Sweep

variable (extractKeys : String → String → List String)
variable (oracle : Activity → List String → Option Activity)

/-- The number of replacement requests a pass issues: one per raised
duplicate flag (main.py 1566-1571: the oracle is called exactly when
`is_duplicate` holds). -/
def flagCount (flags : List (List Bool)) : Nat :=
  (flags.map (fun fs => (fs.filter id).length)).sum

/-- Total number of activity slots of an itinerary. -/
def tripActivityCount (t : Trip) : Nat :=
  (t.map (fun d => d.activities.length)).sum

/-- The duplicate sweep of the generate endpoint (main.py 2525-2535): run
`remove_duplicate_locations`, re-check with `check_final_duplicates`, and
if duplicates remain run exactly one more corrective pass, then continue
regardless of outcome.  Instrumented with the number of passes run and the
total number of replacement requests issued. -/
def generateDuplicateSweep (t : Trip) : Trip × Nat × Nat :=
  let r1 := removeDuplicateLocations extractKeys oracle t []
  if checkFinalDuplicates extractKeys r1.1 ≠ [] then
    let r2 := removeDuplicateLocations extractKeys oracle r1.1 []
    (r2.1, 2, flagCount r1.2.2 + flagCount r2.2.2)
  else (r1.1, 1, flagCount r1.2.2)

end Sweep

/-! ### `verify_and_enrich_trip_data` (main.py 1049-1095) and
`regenerate_failed_activities` (main.py 1097-1209) -/

section TripVerify

variable (apiKey : Option String)
variable (transport : String → Except String (List PlaceDoc))
variable (kb : String → String → List String)
variable (regen : Activity → Option Activity)
variable (extractKeys : String → String → List String)
variable (oracle : Activity → List String → Option Activity)

/-- The per-day verification loop of `verify_and_enrich_trip_data`
(main.py 1065-1084): lodging activities are skipped, every other activity
is verified in place; the `Bool` records whether some activity of the day
failed verification (was appended to `failed_activities`). -/
def verifyDayActs (region : String) : List Activity → List Activity × Bool
  | [] => ([], false)
  | a :: rest =>
    let r := verifyDayActs region rest
    if isLodgingTitle a.title then (a :: r.1, r.2)
    else
      let va := verifyAndEnrichLocation apiKey transport region (kb a.title a.location) a
      (va :: r.1, (va.verified ≠ some true) || r.2)

/-- The day loop of `verify_and_enrich_trip_data`. -/
def verifyTrip (region : String) : Trip → Trip × Bool
  | [] => ([], false)
  | d :: days =>
    let r := verifyDayActs apiKey transport kb region d.activities
    let rr := verifyTrip region days
    ({ d with activities := r.1 } :: rr.1, r.2 || rr.2)

/-- `regenerate_failed_activities(trip_data, failed_activities, destination)`
(main.py 1097-1209): each slot recorded as failed (non-lodging, not
verified) gets one generation request; a parse failure or raised exception
(`regen _ = none`) leaves the slot unchanged. -/
def regenerateFailedActivities (t : Trip) : Trip :=
  t.map (fun d =>
    { d with
      activities := d.activities.map (fun a =>
        if isLodgingTitle a.title then a
        else if a.verified ≠ some true then (regen a).getD a
        else a) })

/-- `verify_and_enrich_trip_data(trip_data, kakao_service, destination)`
(main.py 1049-1095): verify every activity; if any failed, regenerate the
failed slots and run one duplicate-removal pass. -/
def verifyAndEnrichTripData (destination : String) (t : Trip) : Trip :=
  -- `destination.split()[0]` (main.py 1058); `headD ""` stands in for the
  -- indexing, which presumes a destination with at least one word.
  let region := (pySplit destination).headD ""
  let r := verifyTrip apiKey transport kb region t
  if r.2 then
    removeDuplicateLocationsTrip extractKeys oracle
      (regenerateFailedActivities regen r.1)
  else r.1

end TripVerify

/-! ## Theorems settling the claims -/

/-- C7: The region-consistency check returns true vacuously whenever the
target city (via `replace('시','').replace('도','')`) is not in the static
district table (or an input is empty); otherwise it returns false exactly
when the address contains at least one whitespace token bearing the
district marker `구` or county marker `군` that is not in the city's valid
district set; in particular `"서울 강남구 역삼동 1"` checked against target
city `"부산"` is rejected, because 강남구 is not a Busan district. -/
theorem region_validator_characterization :
    (∀ address target_region, validDistricts target_region = [] →
      validateAddressAccuracy address target_region = true) ∧
    (∀ address target_region,
      validateAddressAccuracy address target_region = false ↔
        address ≠ "" ∧ target_region ≠ "" ∧ validDistricts target_region ≠ [] ∧
          ∃ part ∈ pySplit address,
            (strHasSub part "구" = true ∨ strHasSub part "군" = true) ∧
              pyReplace part " " "" ∉ validDistricts target_region) ∧
    validateAddressAccuracy "서울 강남구 역삼동 1" "부산" = false := by
  refine ⟨?_, ?_, by decide⟩
  · intro address target_region h
    unfold validateAddressAccuracy
    split
    · rfl
    · simp [h]
  · intro address target_region
    unfold validateAddressAccuracy
    split
    · rename_i h
      simp only [Bool.or_eq_true, decide_eq_true_eq] at h
      constructor
      · intro hfalse; cases hfalse
      · rintro ⟨ha, hr, -⟩
        rcases h with h | h
        · exact absurd h ha
        · exact absurd h hr
    · rename_i h
      simp only [Bool.or_eq_true, decide_eq_true_eq, not_or] at h
      obtain ⟨ha, hr⟩ := h
      dsimp only
      split
      · rename_i hv
        constructor
        · intro hfalse; cases hfalse
        · rintro ⟨-, -, hv2, -⟩
          exact absurd hv hv2
      · rename_i hv
        simp only [Bool.not_eq_false', List.any_eq_true, Bool.and_eq_true,
          Bool.or_eq_true, Bool.not_eq_true', ne_eq]
        constructor
        · rintro ⟨part, hmem, hmark, hnotin⟩
          refine ⟨ha, hr, hv, part, hmem, hmark, ?_⟩
          intro hin
          have hc : (validDistricts target_region).contains (pyReplace part " " "") = true :=
            List.elem_iff.mpr hin
          rw [hc] at hnotin
          cases hnotin
        · rintro ⟨-, -, -, part, hmem, hmark, hnotin⟩
          refine ⟨part, hmem, hmark, ?_⟩
          rw [Bool.eq_false_iff]
          intro hc
          exact hnotin (List.elem_iff.mp hc)

/-- C7 witness: a concrete application of the characterization — the
district table has no entry for key `"강릉"`, so any address passes
vacuously. -/
theorem region_validator_characterization_witness :
    validateAddressAccuracy "서울 강남구 역삼동 1" "강릉" = true :=
  region_validator_characterization.1 "서울 강남구 역삼동 1" "강릉" (by decide)

/-- Helper: a found-and-relevant keyword reported by the search loop really
came from the keyword list, from a successful search, and passed the
relevance filter (main.py 998-1015). -/
theorem findSearchResult_spec (apiKey : Option String)
    (transport : String → Except String (List PlaceDoc)) (region title : String) :
    ∀ kws kw d, findSearchResult apiKey transport region title kws = some (kw, d) →
      kw ∈ kws ∧ searchPlace apiKey transport kw region = SearchOutcome.ok d ∧
        isRelevantResult kw d.place_name d.category_name title = true := by
  intro kws
  induction kws with
  | nil => intro kw d h; cases h
  | cons k rest ih =>
    intro kw d h
    unfold findSearchResult at h
    split at h
    · obtain ⟨h1, h2, h3⟩ := ih kw d h
      exact ⟨List.mem_cons_of_mem _ h1, h2, h3⟩
    · revert h
      split
      · rename_i d' hs
        split
        · rename_i hrel
          intro h
          cases h
          exact ⟨List.mem_cons_self _ _, hs, hrel⟩
        · intro h
          obtain ⟨h1, h2, h3⟩ := ih kw d h
          exact ⟨List.mem_cons_of_mem _ h1, h2, h3⟩
      · intro h
        obtain ⟨h1, h2, h3⟩ := ih kw d h
        exact ⟨List.mem_cons_of_mem _ h1, h2, h3⟩

/-- Helper: when the search loop found a match, the activity comes out with
`verified = True` (success branch, main.py 1018-1035); when it found none,
with `verified = False` (failure branch, main.py 1036-1043). -/
theorem verify_verified_eq (apiKey : Option String)
    (transport : String → Except String (List PlaceDoc)) (region : String)
    (kws : List String) (a : Activity) :
    (verifyAndEnrichLocation apiKey transport region kws a).verified =
      some (findSearchResult apiKey transport region a.title kws).isSome := by
  unfold verifyAndEnrichLocation
  cases hfind : findSearchResult apiKey transport region a.title kws with
  | none => rfl
  | some kd =>
    obtain ⟨kw, d⟩ := kd
    dsimp only
    split <;> rfl

/-- C1 (counterexample): an activity can end `Verified` while its attached
address fails the region-consistency check for the requested destination,
and no confidence score is computed on this path at all.  The lookup
returns a same-named place in Seoul's Gangnam-gu for a Busan trip; the
verification keyword list shown is exactly what lines 955-991 build for
`title = location = "테스트"` (the string is a real place name by
`_is_real_place_name`'s default, is not a detailed address, and cleaning
changes nothing, so the list collapses to the single keyword). -/
theorem verified_without_region_check_counterexample :
    let out := verifyAndEnrichLocation (some "KEY")
      (fun q => if q = "부산 테스트" then
          Except.ok [{ place_name := "테스트", address_name := "서울 강남구 역삼동 1" }]
        else Except.error "unreachable")
      "부산" ["테스트"] { title := "테스트", location := "테스트" }
    out.verified = some true ∧
      validateAddressAccuracy (out.real_address.getD "") "부산" = false := by
  decide

/-- C1 (amended): an activity ending `Verified` always carries the matched
place record of a successful search whose name passed the relevance filter
(its address and category are attached verbatim); no confidence threshold
and no region-consistency check constrain this status. -/
theorem verified_attaches_relevant_match (apiKey : Option String)
    (transport : String → Except String (List PlaceDoc)) (region : String)
    (kws : List String) (a : Activity)
    (h : (verifyAndEnrichLocation apiKey transport region kws a).verified = some true) :
    ∃ kw d, kw ∈ kws ∧
      searchPlace apiKey transport kw region = SearchOutcome.ok d ∧
      isRelevantResult kw d.place_name d.category_name a.title = true ∧
      (verifyAndEnrichLocation apiKey transport region kws a).real_address =
        some (pyOrElse d.road_address_name d.address_name) ∧
      (verifyAndEnrichLocation apiKey transport region kws a).place_category =
        some d.category_name := by
  have hv := verify_verified_eq apiKey transport region kws a
  rw [h] at hv
  cases hfind : findSearchResult apiKey transport region a.title kws with
  | none => rw [hfind] at hv; simp at hv
  | some kd =>
    obtain ⟨kw, d⟩ := kd
    obtain ⟨h1, h2, h3⟩ := findSearchResult_spec apiKey transport region a.title kws kw d hfind
    refine ⟨kw, d, h1, h2, h3, ?_, ?_⟩ <;>
      · unfold verifyAndEnrichLocation
        rw [hfind]
        dsimp only
        split <;> rfl

/-- C1 witness: the amended theorem applied at the counterexample input. -/
theorem verified_attaches_relevant_match_witness :
    ∃ kw d, kw ∈ ["테스트"] ∧
      searchPlace (some "KEY")
        (fun q => if q = "부산 테스트" then
            Except.ok [{ place_name := "테스트", address_name := "서울 강남구 역삼동 1" }]
          else Except.error "unreachable") kw "부산" = SearchOutcome.ok d ∧
      isRelevantResult kw d.place_name d.category_name "테스트" = true ∧
      (verifyAndEnrichLocation (some "KEY")
        (fun q => if q = "부산 테스트" then
            Except.ok [{ place_name := "테스트", address_name := "서울 강남구 역삼동 1" }]
          else Except.error "unreachable")
        "부산" ["테스트"] { title := "테스트", location := "테스트" }).real_address =
        some (pyOrElse d.road_address_name d.address_name) ∧
      (verifyAndEnrichLocation (some "KEY")
        (fun q => if q = "부산 테스트" then
            Except.ok [{ place_name := "테스트", address_name := "서울 강남구 역삼동 1" }]
          else Except.error "unreachable")
        "부산" ["테스트"] { title := "테스트", location := "테스트" }).place_category =
        some d.category_name :=
  verified_attaches_relevant_match (some "KEY") _ "부산" ["테스트"]
    { title := "테스트", location := "테스트" } (by decide)

/-- C2: an activity that ends verification `Unverifiable`
(`verified = False`) has its `location` rewritten to carry the visible
warning marker and its `real_address` replaced by the warning text, while
the matched-place fields are left exactly as they came in — so a fresh
activity ends with no matched-place data attached; and the replacement
path (`replace_single_duplicate_activity`) hands back that same marked
record when verification of the replacement fails. -/
theorem unverifiable_no_fabrication :
    (∀ (apiKey : Option String) (transport : String → Except String (List PlaceDoc))
        (region : String) (kws : List String) (a : Activity),
      (verifyAndEnrichLocation apiKey transport region kws a).verified = some false →
        (verifyAndEnrichLocation apiKey transport region kws a).location =
            "⚠️ " ++ a.location ++ " (검증되지 않은 주소)" ∧
          (verifyAndEnrichLocation apiKey transport region kws a).real_address =
            some "검증되지 않은 주소입니다" ∧
          (verifyAndEnrichLocation apiKey transport region kws a).place_category =
            a.place_category ∧
          (verifyAndEnrichLocation apiKey transport region kws a).place_telephone =
            a.place_telephone ∧
          (verifyAndEnrichLocation apiKey transport region kws a).coordinates =
            a.coordinates ∧
          (verifyAndEnrichLocation apiKey transport region kws a).verified_name =
            a.verified_name) ∧
    (∀ (apiKey : Option String) (transport : String → Except String (List PlaceDoc))
        (kb : String → String → List String) (destination : String)
        (na r : Activity),
      replaceSingleDuplicateActivity apiKey transport kb destination (some na) = some r →
        r.verified = some false →
          r.location = "⚠️ " ++ na.location ++ " (검증되지 않은 주소)" ∧
            r.place_category = na.place_category) := by
  have main : ∀ (apiKey : Option String)
      (transport : String → Except String (List PlaceDoc))
      (region : String) (kws : List String) (a : Activity),
      (verifyAndEnrichLocation apiKey transport region kws a).verified = some false →
        verifyAndEnrichLocation apiKey transport region kws a =
          { a with
            verified := some false
            location := "⚠️ " ++ a.location ++ " (검증되지 않은 주소)"
            real_address := some "검증되지 않은 주소입니다" } := by
    intro apiKey transport region kws a h
    have hv := verify_verified_eq apiKey transport region kws a
    rw [h] at hv
    cases hfind : findSearchResult apiKey transport region a.title kws with
    | some kd => rw [hfind] at hv; simp at hv
    | none =>
      unfold verifyAndEnrichLocation
      rw [hfind]
  constructor
  · intro apiKey transport region kws a h
    rw [main apiKey transport region kws a h]
    exact ⟨rfl, rfl, rfl, rfl, rfl, rfl⟩
  · intro apiKey transport kb destination na r hr hfalse
    unfold replaceSingleDuplicateActivity at hr
    dsimp only at hr
    have collapse : ∀ (x : Activity),
        (if x.verified = some true then some x else some x) = some x := by
      intro x; split <;> rfl
    rw [collapse] at hr
    obtain rfl : _ = r := Option.some.inj hr
    rw [main _ _ _ _ _ hfalse]
    exact ⟨rfl, rfl⟩

/-- C2 witness: a transport failure leaves a fresh activity unverifiable,
with the marker in place and no matched-place data. -/
theorem unverifiable_no_fabrication_witness :
    (verifyAndEnrichLocation (some "KEY") (fun _ => Except.error "down") "부산"
        ["해운대"] { title := "해운대 산책", location := "해운대" }).location =
        "⚠️ 해운대 (검증되지 않은 주소)" ∧
      (verifyAndEnrichLocation (some "KEY") (fun _ => Except.error "down") "부산"
        ["해운대"] { title := "해운대 산책", location := "해운대" }).real_address =
        some "검증되지 않은 주소입니다" ∧
      (verifyAndEnrichLocation (some "KEY") (fun _ => Except.error "down") "부산"
        ["해운대"] { title := "해운대 산책", location := "해운대" }).place_category =
        ({ title := "해운대 산책", location := "해운대" } : Activity).place_category ∧
      (verifyAndEnrichLocation (some "KEY") (fun _ => Except.error "down") "부산"
        ["해운대"] { title := "해운대 산책", location := "해운대" }).place_telephone =
        ({ title := "해운대 산책", location := "해운대" } : Activity).place_telephone ∧
      (verifyAndEnrichLocation (some "KEY") (fun _ => Except.error "down") "부산"
        ["해운대"] { title := "해운대 산책", location := "해운대" }).coordinates =
        ({ title := "해운대 산책", location := "해운대" } : Activity).coordinates ∧
      (verifyAndEnrichLocation (some "KEY") (fun _ => Except.error "down") "부산"
        ["해운대"] { title := "해운대 산책", location := "해운대" }).verified_name =
        ({ title := "해운대 산책", location := "해운대" } : Activity).verified_name :=
  unverifiable_no_fabrication.1 (some "KEY") (fun _ => Except.error "down") "부산"
    ["해운대"] { title := "해운대 산책", location := "해운대" } (by decide)

/-- Helper: a dedup pass never changes the number of days nor the number of
activity slots per day (each slot maps to exactly one output activity),
whatever the extractor and oracle do. -/
theorem removeDuplicateLocations_shape (extractKeys : String → String → List String)
    (oracle : Activity → List String → Option Activity) :
    ∀ (t : Trip) (v : List String),
      ((removeDuplicateLocations extractKeys oracle t v).1).map
          (fun d => (d.day, d.activities.length)) =
        t.map (fun d => (d.day, d.activities.length)) := by
  have hday : ∀ (acts : List Activity) (v : List String),
      (dedupDay extractKeys oracle acts v).1.length = acts.length := by
    intro acts
    induction acts with
    | nil => intro v; rfl
    | cons a rest ih =>
      intro v
      unfold dedupDay
      simp [ih]
  intro t
  induction t with
  | nil => intro v; rfl
  | cons d days ih =>
    intro v
    unfold removeDuplicateLocations
    simp [ih, hday]

/-- C9: every collaborator failure is absorbed locally as "no usable
result": `search_places` returns the empty list with a missing API key or a
raised transport error; `search_place` returns a not-found outcome in the
same situations; a failed or unparsable replacement request yields no
replacement, and a replacement failure leaves the original activity in its
slot; and the dedup pass returns a full itinerary of the same shape for
every oracle, so no failure aborts processing. -/
theorem collaborator_failures_absorbed :
    (∀ (transport : String → Except String (List PlaceDoc)) (q r : String),
      searchPlaces none transport q r = []) ∧
    (∀ (k : String) (transport : String → Except String (List PlaceDoc)) (q r e : String),
      transport (searchQuery q r) = Except.error e →
        searchPlaces (some k) transport q r = []) ∧
    (∀ (transport : String → Except String (List PlaceDoc)) (q r : String),
      (searchPlace none transport q r).isFound = false) ∧
    (∀ (k : String) (transport : String → Except String (List PlaceDoc)) (q r e : String),
      transport (searchQuery q r) = Except.error e →
        searchPlace (some k) transport q r = SearchOutcome.transErr e ∧
          (searchPlace (some k) transport q r).isFound = false) ∧
    (∀ (apiKey : Option String) (transport : String → Except String (List PlaceDoc))
        (kb : String → String → List String) (destination : String),
      replaceSingleDuplicateActivity apiKey transport kb destination none = none) ∧
    (∀ (extractKeys : String → String → List String)
        (oracle : Activity → List String → Option Activity) (a : Activity)
        (v : List String),
      oracle a v = none → (dedupActivity extractKeys oracle a v).1 = a) ∧
    (∀ (extractKeys : String → String → List String)
        (oracle : Activity → List String → Option Activity) (t : Trip) (v : List String),
      ((removeDuplicateLocations extractKeys oracle t v).1).map
          (fun d => (d.day, d.activities.length)) =
        t.map (fun d => (d.day, d.activities.length))) := by
  refine ⟨fun _ _ _ => rfl, ?_, fun _ _ _ => rfl, ?_, fun _ _ _ _ => rfl, ?_,
    removeDuplicateLocations_shape⟩
  · intro k transport q r e h
    unfold searchPlaces
    rw [h]
  · intro k transport q r e h
    unfold searchPlace
    rw [h]
    exact ⟨rfl, rfl⟩
  · intro extractKeys oracle a v h
    unfold dedupActivity
    split
    · rfl
    · dsimp only
      split
      · rw [h]
      · rfl

/-- C9 witness: the transport-failure conjunct applied to a concrete
timed-out transport. -/
theorem collaborator_failures_absorbed_witness :
    searchPlaces (some "KEY") (fun _ => Except.error "timeout") "해운대" "부산" = [] :=
  collaborator_failures_absorbed.2.1 "KEY" (fun _ => Except.error "timeout")
    "해운대" "부산" "timeout" rfl

/-! ### C3: the duplicate test, characterized -/

/-- The number of shared characters of the two keywords' character sets
(`len(set(k1) & set(k2))`, main.py 1420). -/
def commonCharCard (k1 k2 : String) : Nat :=
  ((charSet k1).filter (fun c => (charSet k2).contains c)).length

/-- Helper: clearing denominators in `common / max ≥ 0.6` is exact. -/
theorem overlap_ratio_iff (a b : ℕ) (hb : 0 < b) :
    3 * b ≤ 5 * a ↔ (0.6 : ℚ) ≤ (a : ℚ) / (b : ℚ) := by
  have hb' : (0 : ℚ) < b := by exact_mod_cast hb
  rw [le_div_iff₀ hb']
  constructor
  · intro h
    have h' : (3 * b : ℚ) ≤ (5 * a : ℚ) := by exact_mod_cast h
    nlinarith
  · intro h
    have h' : (3 * b : ℚ) ≤ (5 * a : ℚ) := by nlinarith
    exact_mod_cast h'

/-- Helper: a nonempty string has a nonempty character set. -/
theorem charSet_pos (s : String) (h : 1 ≤ s.length) : 0 < (charSet s).length := by
  unfold charSet
  cases hd : s.toList with
  | nil =>
    exfalso
    have hlen : s.length = s.toList.length := rfl
    rw [hd] at hlen
    simp at hlen
    omega
  | cons c cs =>
    unfold dedupCharsAux
    simp

/-- Helper: `charOverlapSimilar` is the spec-shaped rational inequality
`|∩| / max(|set₁|, |set₂|) ≥ 0.6` whenever both strings are nonempty. -/
theorem charOverlapSimilar_iff (k1 k2 : String) (h1 : 1 ≤ k1.length) (_h2 : 1 ≤ k2.length) :
    charOverlapSimilar k1 k2 = true ↔
      (0.6 : ℚ) ≤ (commonCharCard k1 k2 : ℚ) /
        ((max (charSet k1).length (charSet k2).length : ℕ) : ℚ) := by
  have hmax : 0 < max (charSet k1).length (charSet k2).length :=
    lt_max_of_lt_left (charSet_pos k1 h1)
  unfold charOverlapSimilar commonCharCard
  rw [decide_eq_true_eq]
  exact overlap_ratio_iff _ _ hmax

/-- Helper: `checkDuplicate` returns `none` exactly when no key matches the
registry. -/
theorem checkDuplicate_none_iff (keys registry : List String) :
    checkDuplicate keys registry = none ↔
      ∀ k ∈ keys, keyMatchesRegistry k registry = false := by
  induction keys with
  | nil => simp [checkDuplicate]
  | cons k rest ih =>
    unfold checkDuplicate
    split
    · rename_i hm
      simp only [List.mem_cons]
      constructor
      · intro h; cases h
      · intro h
        have := h k (Or.inl rfl)
        rw [hm] at this
        cases this
    · rename_i hm
      rw [ih]
      simp only [List.mem_cons]
      constructor
      · intro h k' hk'
        rcases hk' with rfl | hk'
        · exact Bool.eq_false_iff.mpr hm
        · exact h k' hk'
      · intro h k' hk'
        exact h k' (Or.inr hk')

/-- Helper: `checkDuplicate` returns `some key` exactly when `key` is the
first key of the list matching the registry. -/
theorem checkDuplicate_some_iff (keys registry : List String) (key : String) :
    checkDuplicate keys registry = some key ↔
      ∃ l1 l2, keys = l1 ++ key :: l2 ∧
        (∀ k ∈ l1, keyMatchesRegistry k registry = false) ∧
        keyMatchesRegistry key registry = true := by
  induction keys with
  | nil =>
    simp only [checkDuplicate]
    constructor
    · intro h; cases h
    · rintro ⟨l1, l2, h, -, -⟩
      exact absurd h (by simp)
  | cons k rest ih =>
    unfold checkDuplicate
    split
    · rename_i hm
      constructor
      · intro h
        obtain rfl := Option.some.inj h
        exact ⟨[], rest, rfl, by simp, hm⟩
      · rintro ⟨l1, l2, heq, hpre, hkey⟩
        cases l1 with
        | nil =>
          simp only [List.nil_append, List.cons.injEq] at heq
          exact congrArg some heq.1
        | cons x l1' =>
          simp only [List.cons_append, List.cons.injEq] at heq
          have := hpre x (by simp)
          rw [← heq.1, hm] at this
          cases this
    · rename_i hm
      rw [ih]
      constructor
      · rintro ⟨l1, l2, heq, hpre, hkey⟩
        refine ⟨k :: l1, l2, by simp [heq], ?_, hkey⟩
        intro k' hk'
        rcases List.mem_cons.mp hk' with rfl | hk'
        · exact Bool.eq_false_iff.mpr hm
        · exact hpre k' hk'
      · rintro ⟨l1, l2, heq, hpre, hkey⟩
        cases l1 with
        | nil =>
          simp only [List.nil_append, List.cons.injEq] at heq
          rw [heq.1] at hm
          rw [hkey] at hm
          cases hm rfl
        | cons x l1' =>
          simp only [List.cons_append, List.cons.injEq] at heq
          refine ⟨l1', l2, heq.2, ?_, hkey⟩
          intro k' hk'
          exact hpre k' (by simp [hk'])

/-- C3 (amended): the duplicate test characterized.  `isSimilarLocation` is
the disjunction of: equality; substring containment either direction (both
keys of length ≥ 2); a shared Hangul core place name
(`_extract_core_location_parts`); character-set overlap
`|∩| / max(|set₁|, |set₂|) ≥ 0.6` (both keys of length ≥ 3) — the code's
metric divides by the larger set, not by the union as a Jaccard similarity
would; or membership in a common same-spot alias group.  A key set is
flagged exactly when some key is registered or similar to a registered key,
processing stops at the first matching key, and that key is the reported
duplicate key. -/
theorem dedup_flag_characterization :
    (∀ k1 k2 : String, isSimilarLocation k1 k2 = true ↔
      k1 ≠ "" ∧ k2 ≠ "" ∧
        (k1 = k2 ∨
         (2 ≤ k1.length ∧ 2 ≤ k2.length ∧
           (strHasSub k2 k1 = true ∨ strHasSub k1 k2 = true)) ∨
         (∃ c, c ∈ extractCoreLocationParts k1 k2) ∨
         (3 ≤ k1.length ∧ 3 ≤ k2.length ∧
           (0.6 : ℚ) ≤ (commonCharCard k1 k2 : ℚ) /
             ((max (charSet k1).length (charSet k2).length : ℕ) : ℚ)) ∨
         isSameTouristSpot k1 k2 = true)) ∧
    (∀ (key : String) (registry : List String),
      keyMatchesRegistry key registry = true ↔
        ((key ≠ "" ∧ key ∈ registry) ∨
          ∃ w ∈ registry, isSimilarLocation key w = true)) ∧
    (∀ (keys registry : List String) (key : String),
      checkDuplicate keys registry = some key ↔
        ∃ l1 l2, keys = l1 ++ key :: l2 ∧
          (∀ k ∈ l1, keyMatchesRegistry k registry = false) ∧
          keyMatchesRegistry key registry = true) ∧
    (∀ keys registry : List String,
      checkDuplicate keys registry = none ↔
        ∀ k ∈ keys, keyMatchesRegistry k registry = false) := by
  refine ⟨?_, ?_, checkDuplicate_some_iff, checkDuplicate_none_iff⟩
  case refine_2 =>
    intro key registry
    unfold keyMatchesRegistry
    simp only [Bool.or_eq_true, Bool.and_eq_true, decide_eq_true_eq, List.any_eq_true,
      List.elem_iff, ne_eq]
  case refine_1 =>
    intro k1 k2
    unfold isSimilarLocation
    split
    · rename_i h
      simp only [Bool.or_eq_true, decide_eq_true_eq] at h
      constructor
      · intro hf; cases hf
      · rintro ⟨h1, h2, -⟩
        rcases h with h | h
        · exact absurd h h1
        · exact absurd h h2
    · rename_i h
      simp only [Bool.or_eq_true, decide_eq_true_eq, not_or] at h
      obtain ⟨h1, h2⟩ := h
      have hl1 : 1 ≤ k1.length := by
        rcases Nat.eq_zero_or_pos k1.length with hz | hp
        · exact absurd (String.ext (List.length_eq_zero.mp hz)) h1
        · exact hp
      have hl2 : 1 ≤ k2.length := by
        rcases Nat.eq_zero_or_pos k2.length with hz | hp
        · exact absurd (String.ext (List.length_eq_zero.mp hz)) h2
        · exact hp
      split
      · rename_i heq
        simp [h1, h2, heq]
      · rename_i hne
        split
        · rename_i hsub
          simp only [Bool.and_eq_true, Bool.or_eq_true, decide_eq_true_eq] at hsub
          simp only [ne_eq, h1, not_false_iff, h2, true_and]
          constructor
          · intro _
            exact Or.inr (Or.inl ⟨hsub.1.1, hsub.1.2, hsub.2⟩)
          · intro _; trivial
        · rename_i hsub
          split
          · rename_i hcore
            simp only [Bool.not_eq_true', List.isEmpty_eq_false_iff_exists_mem] at hcore
            simp only [ne_eq, h1, not_false_iff, h2, true_and]
            constructor
            · intro _
              exact Or.inr (Or.inr (Or.inl hcore))
            · intro _; trivial
          · rename_i hcore
            split
            · rename_i hov
              simp only [Bool.and_eq_true, decide_eq_true_eq] at hov
              simp only [ne_eq, h1, not_false_iff, h2, true_and]
              constructor
              · intro _
                refine Or.inr (Or.inr (Or.inr (Or.inl ⟨hov.1.1, hov.1.2, ?_⟩)))
                exact (charOverlapSimilar_iff k1 k2 hl1 hl2).mp hov.2
              · intro _; trivial
            · rename_i hov
              simp only [ne_eq, h1, not_false_iff, h2, true_and]
              constructor
              · intro hspot
                exact Or.inr (Or.inr (Or.inr (Or.inr hspot)))
              · intro hcases
                rcases hcases with hc | hc | hc | hc | hc
                · exact absurd hc hne
                · exact absurd (by exact_mod_cast (by simp [hc.1, hc.2.1, hc.2.2] :
                    (2 ≤ k1.length ∧ 2 ≤ k2.length ∧
                      (strHasSub k2 k1 = true ∨ strHasSub k1 k2 = true)))) (by
                    intro hcon
                    apply hsub
                    simp [hcon.1, hcon.2.1, hcon.2.2])
                · exact absurd hc (by
                    intro hcon
                    apply hcore
                    simp only [Bool.not_eq_true', Bool.not_eq_false] at *
                    exact List.isEmpty_eq_false_iff_exists_mem.mpr hcon)
                · exact absurd hc (by
                    rintro ⟨ha, hb, hq⟩
                    apply hov
                    simp only [Bool.and_eq_true, decide_eq_true_eq]
                    exact ⟨⟨ha, hb⟩, (charOverlapSimilar_iff k1 k2 hl1 hl2).mpr hq⟩)
                · exact hc

/-- C3 (counterexample): the key `"abc"` against the registry `{"bcd"}` is
flagged by the code — its character-set overlap is `2/3 ≥ 0.6` under the
code's `|∩| / max(|set₁|, |set₂|)` metric — but under the claim's stated
conditions it is no duplicate: it is not registered, no substring relation
holds, the Jaccard similarity is `2/4 < 0.6`, and no same-spot alias group
contains both keys. -/
theorem dedup_flag_counterexample :
    checkDuplicate ["abc"] ["bcd"] = some "abc" ∧
      ¬(("abc" : String) ∈ (["bcd"] : List String) ∨
        strHasSub "bcd" "abc" = true ∨ strHasSub "abc" "bcd" = true ∨
        (0.6 : ℚ) ≤ (commonCharCard "abc" "bcd" : ℚ) /
          (((charSet "abc").length + (charSet "bcd").length - commonCharCard "abc" "bcd" : ℕ) : ℚ) ∨
        isSameTouristSpot "abc" "bcd" = true) := by
  constructor
  · decide
  · intro h
    rcases h with h | h | h | h | h
    · exact absurd h (by decide)
    · exact absurd h (by decide)
    · exact absurd h (by decide)
    · have h1 : commonCharCard "abc" "bcd" = 2 := by decide
      have h2 : (charSet "abc").length = 3 := by decide
      have h3 : (charSet "bcd").length = 3 := by decide
      rw [h1, h2, h3] at h
      norm_num at h
    · exact absurd h (by decide)

/-- C3 witness: the key `"해운대"` against a registry containing
`"해운대해수욕장"` is flagged via substring containment, and the matching
key is reported. -/
theorem dedup_flag_characterization_witness :
    checkDuplicate ["해운대"] ["해운대해수욕장"] = some "해운대" :=
  (dedup_flag_characterization.2.2.1 ["해운대"] ["해운대해수욕장"] "해운대").mpr
    ⟨[], [], rfl, by simp, by decide⟩

/-! ### C8: monotonicity of the confidence scorers -/

/-- Helper: per-character lowering preserves length. -/
theorem pyLower_length (s : String) : (pyLower s).length = s.length := by
  show (s.toList.map Char.toLower).length = s.length
  rw [List.length_map]
  rfl

/-- Helper: a contained substring is no longer than its container. -/
theorem listHasSub_length_le (needle : List Char) :
    ∀ l, listHasSub needle l = true → needle.length ≤ l.length := by
  intro l
  induction l with
  | nil =>
    intro h
    unfold listHasSub at h
    simp only [List.isEmpty_iff] at h
    simp [h]
  | cons c cs ih =>
    intro h
    unfold listHasSub at h
    simp only [Bool.or_eq_true] at h
    rcases h with h | h
    · exact (List.IsPrefix.length_le (List.isPrefixOf_iff_prefix.mp h))
    · exact le_trans (ih h) (by simp)

/-- Helper: `sub in s` implies `len(sub) ≤ len(s)`. -/
theorem strHasSub_length_le (s sub : String) (h : strHasSub s sub = true) :
    sub.length ≤ s.length :=
  listHasSub_length_le sub.toList s.toList h

/-- Helper: monotonicity of the arithmetic layer of
`_calculate_relevance_score` inside the interior-substring regime. -/
theorem relevanceScoreOfSig_mono (s1 s2 : RelevanceSig)
    (hsub1 : s1.hasSub = true) (hsub2 : s2.hasSub = true)
    (heq1 : s1.isEq = false) (heq2 : s2.isEq = false)
    (hst1 : s1.isStart = false) (hst2 : s2.isStart = false)
    (hpl : s1.plLen = s2.plLen) (hm : s1.matched = s2.matched)
    (hc : s1.catHit = s2.catHit) (hp : s1.penaltyCount = s2.penaltyCount)
    (hlen : s1.kwLen ≤ s2.kwLen) :
    relevanceScoreOfSig s1 ≤ relevanceScoreOfSig s2 := by
  unfold relevanceScoreOfSig
  rw [hsub1, hsub2, heq1, heq2, hst1, hst2, hpl, hm, hc, hp]
  simp only [if_true, if_false, Bool.false_eq_true]
  have hname : (if ((s1.kwLen : ℚ) / s2.plLen) > 0.5 then (0.7 : ℚ) else 0.4) ≤
      (if ((s2.kwLen : ℚ) / s2.plLen) > 0.5 then (0.7 : ℚ) else 0.4) := by
    split
    · rename_i h1
      have hpos : (0 : ℚ) < (s2.plLen : ℚ) := by
        rcases Nat.eq_zero_or_pos s2.plLen with hz | hpos
        · exfalso
          rw [hz] at h1
          norm_num at h1
        · exact_mod_cast hpos
      rw [if_pos]
      calc (0.5 : ℚ) < (s1.kwLen : ℚ) / s2.plLen := h1
        _ ≤ (s2.kwLen : ℚ) / s2.plLen :=
          (div_le_div_iff_of_pos_right hpos).mpr (by exact_mod_cast hlen)
    · split <;> norm_num
  have hx : (if ((s1.kwLen : ℚ) / s2.plLen) > 0.5 then (0.7 : ℚ) else 0.4) +
        0.3 * s2.matched + (if s2.catHit then (0.2 : ℚ) else 0) - 0.5 * s2.penaltyCount ≤
      (if ((s2.kwLen : ℚ) / s2.plLen) > 0.5 then (0.7 : ℚ) else 0.4) +
        0.3 * s2.matched + (if s2.catHit then (0.2 : ℚ) else 0) - 0.5 * s2.penaltyCount := by
    have := hname
    linarith
  exact max_le_max (le_refl 0) (min_le_min hx (le_refl 1))

/-- C8 (counterexample): the claim's monotonicity fails for
`_calculate_relevance_score`.  With the place name `"abcdefghij"` and empty
category held fixed (word-match, category and penalty signals are all zero
for both candidates), the candidate `"ab"` has name-match ratio `0.2` but
scores `0.9` (prefix tier), while `"bcdefg"` has the larger ratio `0.6` but
scores only `0.7` (interior-substring tier): increasing the ratio decreased
the score. -/
theorem confidence_monotonicity_counterexample :
    ¬(∀ kw1 kw2 pl cat : String,
        nameMatchShare kw1 pl ≤ nameMatchShare kw2 pl →
          relevanceScore kw1 pl cat ≤ relevanceScore kw2 pl cat) := by
  intro h
  have hr : nameMatchShare "ab" "abcdefghij" ≤ nameMatchShare "bcdefg" "abcdefghij" := by
    have h1 : (pyLower (pyReplace "ab" " " "")).length = 2 := by decide
    have h2 : (pyLower (pyReplace "bcdefg" " " "")).length = 6 := by decide
    have h3 : (pyLower (pyReplace "abcdefghij" " " "")).length = 10 := by decide
    rw [nameMatchShare, nameMatchShare, h1, h2, h3]
    norm_num
  have hs := h "ab" "bcdefg" "abcdefghij" "" hr
  have e1 : relevanceScore "ab" "abcdefghij" "" = 0.9 := by
    have hsig : relevanceSig "ab" "abcdefghij" "" =
        { hasSub := true, isEq := false, isStart := true, kwLen := 2, plLen := 10,
          matched := 0, catHit := false, penaltyCount := 0 } := by decide
    rw [relevanceScore, hsig]
    norm_num [relevanceScoreOfSig]
  have e2 : relevanceScore "bcdefg" "abcdefghij" "" = 0.7 := by
    have hsig : relevanceSig "bcdefg" "abcdefghij" "" =
        { hasSub := true, isEq := false, isStart := false, kwLen := 6, plLen := 10,
          matched := 0, catHit := false, penaltyCount := 0 } := by decide
    rw [relevanceScore, hsig]
    norm_num [relevanceScoreOfSig]
  rw [e1, e2] at hs
  norm_num at hs

/-- C8 (amended): the scorers are monotone in the name-match ratio within a
fixed name-match tier.  For `_calculate_kakao_local_confidence` (whose name
signal is `0.6 · ratio` throughout the substring case) this holds
unconditionally: a longer contained search term never scores lower against
the same place, category, address and region.  For
`_calculate_relevance_score` it holds among interior substring matches
(contained, not equal, not a prefix) with the word-match signal also fixed;
the prefix tier awards a flat `0.9` independent of the ratio, which is what
breaks global monotonicity. -/
theorem confidence_monotone_in_tier :
    (∀ s1 s2 pl cat addr road reg : String,
      strHasSub (pyLower pl) (pyLower s1) = true →
      strHasSub (pyLower pl) (pyLower s2) = true →
      s1.length ≤ s2.length → 1 ≤ pl.length →
        kakaoLocalConfidence s1 pl cat addr road reg ≤
          kakaoLocalConfidence s2 pl cat addr road reg) ∧
    (∀ kw1 kw2 pl cat : String,
      (relevanceSig kw1 pl cat).hasSub = true → (relevanceSig kw2 pl cat).hasSub = true →
      (relevanceSig kw1 pl cat).isEq = false → (relevanceSig kw2 pl cat).isEq = false →
      (relevanceSig kw1 pl cat).isStart = false → (relevanceSig kw2 pl cat).isStart = false →
      (relevanceSig kw1 pl cat).matched = (relevanceSig kw2 pl cat).matched →
      (relevanceSig kw1 pl cat).kwLen ≤ (relevanceSig kw2 pl cat).kwLen →
        relevanceScore kw1 pl cat ≤ relevanceScore kw2 pl cat) := by
  constructor
  · intro s1 s2 pl cat addr road reg hsub1 hsub2 hlen hpl
    unfold kakaoLocalConfidence
    dsimp only
    rw [hsub1, hsub2]
    simp only [if_true]
    have hL : (0 : ℚ) < ((pyLower pl).length : ℚ) := by
      rw [pyLower_length]
      exact_mod_cast hpl
    have hl1 : ((pyLower s1).length : ℚ) ≤ ((pyLower s2).length : ℚ) := by
      rw [pyLower_length, pyLower_length]
      exact_mod_cast hlen
    have hle1 : ((pyLower s1).length : ℚ) ≤ ((pyLower pl).length : ℚ) := by
      exact_mod_cast strHasSub_length_le _ _ hsub1
    have hle2 : ((pyLower s2).length : ℚ) ≤ ((pyLower pl).length : ℚ) := by
      exact_mod_cast strHasSub_length_le _ _ hsub2
    have hname : (if pyLower s1 = pyLower pl then (0.6 : ℚ)
          else 0.6 * (((pyLower s1).length : ℚ) / ((pyLower pl).length : ℚ))) ≤
        (if pyLower s2 = pyLower pl then (0.6 : ℚ)
          else 0.6 * (((pyLower s2).length : ℚ) / ((pyLower pl).length : ℚ))) := by
      have hfrac : ∀ x : ℚ, 0 ≤ x → x ≤ ((pyLower pl).length : ℚ) →
          0.6 * (x / ((pyLower pl).length : ℚ)) ≤ 0.6 := by
        intro x hx hxle
        have : x / ((pyLower pl).length : ℚ) ≤ 1 := by
          rw [div_le_one hL]
          exact hxle
        linarith
      split
      · rename_i he1
        split
        · exact le_refl _
        · rename_i he2
          have hl1L : ((pyLower s1).length : ℚ) = ((pyLower pl).length : ℚ) := by
            rw [he1]
          have h2L : ((pyLower s2).length : ℚ) = ((pyLower pl).length : ℚ) :=
            le_antisymm hle2 (hl1L ▸ hl1)
          rw [h2L, div_self (ne_of_gt hL)]
          norm_num
      · split
        · rename_i he2
          exact hfrac _ (by positivity) hle1
        · have : ((pyLower s1).length : ℚ) / ((pyLower pl).length : ℚ) ≤
              ((pyLower s2).length : ℚ) / ((pyLower pl).length : ℚ) :=
            (div_le_div_iff_of_pos_right hL).mpr hl1
          linarith
    apply min_le_min ?_ (le_refl 1)
    linarith
  · intro kw1 kw2 pl cat hsub1 hsub2 heq1 heq2 hst1 hst2 hm hlen
    exact relevanceScoreOfSig_mono _ _ hsub1 hsub2 heq1 heq2 hst1 hst2 rfl hm rfl rfl hlen

/-- C8 witness: the kakao-confidence conjunct at a concrete tier — the
longer contained candidate `"해운대"` never scores below `"해운"` against
the same place record. -/
theorem confidence_monotone_in_tier_witness :
    kakaoLocalConfidence "해운" "해운대해수욕장" "" "" "" "" ≤
      kakaoLocalConfidence "해운대" "해운대해수욕장" "" "" "" "" :=
  confidence_monotone_in_tier.1 "해운" "해운대" "해운대해수욕장" "" "" "" ""
    (by decide) (by decide) (by decide) (by decide)

/-! ### C4: earlier days win dedup precedence -/

/-- Helper: registering keys never removes a registered key. -/
theorem mem_addKeys_of_mem (v ks : List String) (x : String) (h : x ∈ v) :
    x ∈ addKeys v ks := by
  simp [addKeys, h]

/-- Helper: a non-empty key of a registered key set is registered. -/
theorem mem_addKeys_of_key (v ks : List String) (k : String) (hk : k ∈ ks) (h0 : k ≠ "") :
    k ∈ addKeys v ks := by
  simp only [addKeys, List.mem_append, List.mem_filter]
  exact Or.inr ⟨hk, by simp [h0]⟩

/-- Helper: one dedup step only ever grows the visited registry. -/
theorem dedupActivity_visited_mono (extractKeys : String → String → List String)
    (oracle : Activity → List String → Option Activity) (a : Activity)
    (v : List String) (x : String) (h : x ∈ v) :
    x ∈ (dedupActivity extractKeys oracle a v).2.1 := by
  unfold dedupActivity
  split
  · exact h
  · dsimp only
    split
    · split
      · exact mem_addKeys_of_mem _ _ _ h
      · exact mem_addKeys_of_mem _ _ _ h
    · exact mem_addKeys_of_mem _ _ _ h

/-- Helper: a day's dedup scan only ever grows the visited registry. -/
theorem dedupDay_visited_mono (extractKeys : String → String → List String)
    (oracle : Activity → List String → Option Activity) :
    ∀ (acts : List Activity) (v : List String) (x : String), x ∈ v →
      x ∈ (dedupDay extractKeys oracle acts v).2.1 := by
  intro acts
  induction acts with
  | nil => intro v x h; exact h
  | cons a rest ih =>
    intro v x h
    unfold dedupDay
    exact ih _ _ (dedupActivity_visited_mono extractKeys oracle a v x h)

/-- Helper: against an empty registry nothing is flagged. -/
theorem checkDuplicate_nil_registry (keys : List String) :
    checkDuplicate keys [] = none := by
  rw [checkDuplicate_none_iff]
  intro k _
  simp [keyMatchesRegistry]

/-- Helper: a registered non-empty key matches the registry. -/
theorem keyMatchesRegistry_of_mem (k : String) (v : List String) (h0 : k ≠ "")
    (hv : k ∈ v) : keyMatchesRegistry k v = true := by
  unfold keyMatchesRegistry
  simp [h0, List.elem_iff]
  exact Or.inl hv

/-- Helper: a key set containing a matching key is flagged. -/
theorem checkDuplicate_isSome (keys v : List String) (k : String) (hk : k ∈ keys)
    (hm : keyMatchesRegistry k v = true) : ∃ dk, checkDuplicate keys v = some dk := by
  cases h : checkDuplicate keys v with
  | some dk => exact ⟨dk, rfl⟩
  | none =>
    have := (checkDuplicate_none_iff keys v).mp h k hk
    rw [hm] at this
    cases this

/-- C4: processed in day order, with two non-lodging activities carrying
identical location key sets (containing some non-empty key) on an earlier
and a later day, the earlier activity is accepted into the registry
unflagged and returned unchanged, while the later one is flagged as
duplicate and its slot holds the oracle's replacement (the original only
when the replacement request fails); the earlier day's activity is never
the one replaced. -/
theorem earlier_day_wins (extractKeys : String → String → List String)
    (oracle : Activity → List String → Option Activity)
    (n1 n3 : Option Nat) (d2 : DayPlan) (a b : Activity)
    (ha : isLodgingTitle a.title = false) (hb : isLodgingTitle b.title = false)
    (hkeys : extractKeys (pyStrip b.title) (pyStrip b.location) =
      extractKeys (pyStrip a.title) (pyStrip a.location))
    (k : String) (hk : k ∈ extractKeys (pyStrip a.title) (pyStrip a.location))
    (hk0 : k ≠ "") :
    ∃ acts2 flags2 v v2,
      removeDuplicateLocations extractKeys oracle
          [{ day := n1, activities := [a] }, d2, { day := n3, activities := [b] }] [] =
        ([{ day := n1, activities := [a] }, { d2 with activities := acts2 },
            { day := n3, activities := [(oracle b v2).getD b] }],
          v, [[false], flags2, [true]]) := by
  have h1 : dedupActivity extractKeys oracle a [] =
      (a, addKeys [] (extractKeys (pyStrip a.title) (pyStrip a.location)), false) := by
    unfold dedupActivity
    simp only [ha, Bool.false_eq_true, if_false]
    rw [checkDuplicate_nil_registry]
  have hday1 : dedupDay extractKeys oracle [a] [] =
      ([a], addKeys [] (extractKeys (pyStrip a.title) (pyStrip a.location)), [false]) := by
    unfold dedupDay dedupDay
    rw [h1]
  obtain ⟨acts2, v2, flags2, hday2⟩ : ∃ acts2 v2 flags2,
      dedupDay extractKeys oracle d2.activities
        (addKeys [] (extractKeys (pyStrip a.title) (pyStrip a.location))) =
        (acts2, v2, flags2) := ⟨_, _, _, rfl⟩
  have hv2 : k ∈ v2 := by
    have hk1 : k ∈ addKeys [] (extractKeys (pyStrip a.title) (pyStrip a.location)) :=
      mem_addKeys_of_key _ _ _ hk hk0
    have hmono := dedupDay_visited_mono extractKeys oracle d2.activities _ k hk1
    rw [hday2] at hmono
    exact hmono
  obtain ⟨dk, hdk⟩ := checkDuplicate_isSome
    (extractKeys (pyStrip a.title) (pyStrip a.location)) v2 k hk
    (keyMatchesRegistry_of_mem k v2 hk0 hv2)
  have h3 : ∃ v3, dedupActivity extractKeys oracle b v2 =
      ((oracle b v2).getD b, v3, true) := by
    unfold dedupActivity
    simp only [hb, Bool.false_eq_true, if_false]
    rw [hkeys, hdk]
    cases horacle : oracle b v2 with
    | some na => exact ⟨_, rfl⟩
    | none => exact ⟨_, rfl⟩
  obtain ⟨v3, h3⟩ := h3
  have hday3 : dedupDay extractKeys oracle [b] v2 =
      ([(oracle b v2).getD b], v3, [true]) := by
    unfold dedupDay dedupDay
    rw [h3]
  refine ⟨acts2, flags2, v3, v2, ?_⟩
  unfold removeDuplicateLocations removeDuplicateLocations removeDuplicateLocations
    removeDuplicateLocations
  rw [hday1]
  dsimp only
  rw [hday2]
  dsimp only
  rw [hday3]

/-- C4 witness: the theorem applied to a concrete two-activity scenario
(Day 1 and Day 3 with the identical key set `["해운대"]`), with an oracle
that proposes a fixed replacement. -/
theorem earlier_day_wins_witness :
    ∃ (acts2 : List Activity) (flags2 : List Bool) (v _v2 : List String),
      removeDuplicateLocations (fun _ _ => ["해운대"])
          (fun _ _ => some { title := "광안리 산책", location := "광안리해변" })
          [{ day := some 1, activities := [{ title := "해운대 산책", location := "해운대" }] },
            { day := some 2, activities := [] },
            { day := some 3, activities := [{ title := "해운대 방문", location := "해운대" }] }] [] =
        ([{ day := some 1, activities := [{ title := "해운대 산책", location := "해운대" }] },
            { day := some 2, activities := acts2 },
            { day := some 3, activities :=
              [{ title := "광안리 산책", location := "광안리해변" }] }],
          v, [[false], flags2, [true]]) :=
  earlier_day_wins (fun _ _ => ["해운대"])
    (fun _ _ => some { title := "광안리 산책", location := "광안리해변" })
    (some 1) (some 3) { day := some 2, activities := [] }
    { title := "해운대 산책", location := "해운대" }
    { title := "해운대 방문", location := "해운대" }
    (by decide) (by decide) rfl "해운대" (by decide) (by decide)

/-! ### C5: bounded repair -/

/-- Modelled from the spec: the retry ceiling `MAX_REPAIR_ATTEMPTS`
(spec §4.7, reference value 2-3).  The source has no named constant; its
structure bounds replacement requests at one per activity per pass, and the
generate endpoint (main.py 2525-2535) runs at most two passes, so two is
the ceiling the code actually enforces per activity. -/
def MAX_REPAIR_ATTEMPTS : Nat := 2

/-- Helper: a day's dedup scan emits exactly one flag per activity slot. -/
theorem dedupDay_flags_length (extractKeys : String → String → List String)
    (oracle : Activity → List String → Option Activity) :
    ∀ (acts : List Activity) (v : List String),
      (dedupDay extractKeys oracle acts v).2.2.length = acts.length := by
  intro acts
  induction acts with
  | nil => intro v; rfl
  | cons a rest ih =>
    intro v
    unfold dedupDay
    simp [ih]

/-- Helper: a pass issues at most one replacement request per activity slot
of the input. -/
theorem flagCount_le_tripActivityCount (extractKeys : String → String → List String)
    (oracle : Activity → List String → Option Activity) :
    ∀ (t : Trip) (v : List String),
      flagCount (removeDuplicateLocations extractKeys oracle t v).2.2 ≤
        tripActivityCount t := by
  intro t
  induction t with
  | nil => intro v; exact Nat.le_refl 0
  | cons d days ih =>
    intro v
    unfold removeDuplicateLocations
    show flagCount (_ :: _) ≤ tripActivityCount (d :: days)
    unfold flagCount tripActivityCount
    simp only [List.map_cons, List.sum_cons]
    have h1 : ((dedupDay extractKeys oracle d.activities v).2.2.filter id).length ≤
        d.activities.length := by
      calc ((dedupDay extractKeys oracle d.activities v).2.2.filter id).length ≤
          (dedupDay extractKeys oracle d.activities v).2.2.length :=
            List.length_filter_le _ _
        _ = d.activities.length := dedupDay_flags_length extractKeys oracle d.activities v
    have h2 := ih (dedupDay extractKeys oracle d.activities v).2.1
    unfold flagCount tripActivityCount at h2
    omega

/-- Helper: a pass preserves the total number of activity slots. -/
theorem tripActivityCount_preserved (extractKeys : String → String → List String)
    (oracle : Activity → List String → Option Activity) :
    ∀ (t : Trip) (v : List String),
      tripActivityCount (removeDuplicateLocations extractKeys oracle t v).1 =
        tripActivityCount t := by
  have hday : ∀ (acts : List Activity) (v : List String),
      (dedupDay extractKeys oracle acts v).1.length = acts.length := by
    intro acts
    induction acts with
    | nil => intro v; rfl
    | cons a rest ih =>
      intro v
      unfold dedupDay
      simp [ih]
  intro t
  induction t with
  | nil => intro v; rfl
  | cons d days ih =>
    intro v
    unfold removeDuplicateLocations
    show tripActivityCount (_ :: _) = tripActivityCount (d :: days)
    unfold tripActivityCount
    simp only [List.map_cons, List.sum_cons]
    have h2 := ih (dedupDay extractKeys oracle d.activities v).2.1
    unfold tripActivityCount at h2
    rw [hday d.activities v, h2]

/-- C5: the generate endpoint's repair processing is bounded: the duplicate
sweep runs at most two passes, the second (corrective) pass only when the
final duplicate check still reports duplicates after the first; every pass
issues at most one replacement request per activity slot; and the total
number of replacement requests is at most `MAX_REPAIR_ATTEMPTS` per
activity, hence linear in the itinerary size (so the pipeline terminates in
steps proportional to it). -/
theorem bounded_repair_sweep :
    (∀ (extractKeys : String → String → List String)
        (oracle : Activity → List String → Option Activity) (t : Trip),
      (generateDuplicateSweep extractKeys oracle t).2.1 ≤ 2) ∧
    (∀ (extractKeys : String → String → List String)
        (oracle : Activity → List String → Option Activity) (t : Trip),
      (generateDuplicateSweep extractKeys oracle t).2.1 = 2 →
        checkFinalDuplicates extractKeys (removeDuplicateLocationsTrip extractKeys oracle t) ≠ []) ∧
    (∀ (extractKeys : String → String → List String)
        (oracle : Activity → List String → Option Activity)
        (acts : List Activity) (v : List String),
      ((dedupDay extractKeys oracle acts v).2.2.filter id).length ≤ acts.length) ∧
    (∀ (extractKeys : String → String → List String)
        (oracle : Activity → List String → Option Activity) (t : Trip),
      (generateDuplicateSweep extractKeys oracle t).2.2 ≤
        MAX_REPAIR_ATTEMPTS * tripActivityCount t) := by
  refine ⟨?_, ?_, ?_, ?_⟩
  · intro extractKeys oracle t
    unfold generateDuplicateSweep
    dsimp only
    split <;> simp
  · intro extractKeys oracle t h
    unfold generateDuplicateSweep at h
    dsimp only at h
    unfold removeDuplicateLocationsTrip
    split at h
    · assumption
    · simp at h
  · intro extractKeys oracle acts v
    calc ((dedupDay extractKeys oracle acts v).2.2.filter id).length ≤
        (dedupDay extractKeys oracle acts v).2.2.length := List.length_filter_le _ _
      _ = acts.length := dedupDay_flags_length extractKeys oracle acts v
  · intro extractKeys oracle t
    unfold generateDuplicateSweep
    dsimp only
    split
    · dsimp only
      have h1 := flagCount_le_tripActivityCount extractKeys oracle t []
      have h2 := flagCount_le_tripActivityCount extractKeys oracle
        (removeDuplicateLocations extractKeys oracle t []).1 []
      have h3 := tripActivityCount_preserved extractKeys oracle t []
      rw [h3] at h2
      unfold MAX_REPAIR_ATTEMPTS
      omega
    · dsimp only
      have h1 := flagCount_le_tripActivityCount extractKeys oracle t []
      unfold MAX_REPAIR_ATTEMPTS
      omega

/-- C5 witness: the pass-count bound and the request bound applied to a
concrete one-day itinerary. -/
theorem bounded_repair_sweep_witness :
    (generateDuplicateSweep (fun _ _ => ["해운대"]) (fun _ _ => none)
        [{ day := some 1, activities := [{ title := "해운대 산책", location := "해운대" }] }]).2.1 ≤ 2 ∧
      (generateDuplicateSweep (fun _ _ => ["해운대"]) (fun _ _ => none)
        [{ day := some 1, activities := [{ title := "해운대 산책", location := "해운대" }] }]).2.2 ≤
        MAX_REPAIR_ATTEMPTS * tripActivityCount
          [{ day := some 1, activities := [{ title := "해운대 산책", location := "해운대" }] }] :=
  ⟨bounded_repair_sweep.1 (fun _ _ => ["해운대"]) (fun _ _ => none) _,
    bounded_repair_sweep.2.2.2 (fun _ _ => ["해운대"]) (fun _ _ => none) _⟩

/-! ### C10: the final duplicate check is read-only -/

/-- Helper: a report produced against an existing entry cites that entry's
day and describes the current activity. -/
theorem reportsAgainst_fields (e cur : DupEntry) (rep : DupReport)
    (h : rep ∈ reportsAgainst e cur) :
    rep.existingDay = e.day ∧ rep.day = cur.day ∧ rep.title = cur.title := by
  unfold reportsAgainst at h
  split at h
  · simp only [List.mem_singleton] at h
    subst h
    exact ⟨rfl, rfl, rfl⟩
  · split at h
    · simp only [List.mem_singleton] at h
      subst h
      exact ⟨rfl, rfl, rfl⟩
    · cases h

/-- Helper: the traversal of `check_final_duplicates` reassembles every
activity of every day unchanged. -/
theorem cfdScanActs_traversal (ek : String → String → List String) (dn : Option Nat) :
    ∀ (acts : List Activity) (acc : List DupEntry),
      (cfdScanActs ek dn acts acc).2.2 = acts := by
  intro acts
  induction acts with
  | nil => intro acc; rfl
  | cons a rest ih =>
    intro acc
    unfold cfdScanActs
    split
    · simp [ih]
    · simp [ih]

/-- Helper: the accumulated `all_locations` list only grows at the end. -/
theorem cfdScanActs_acc (ek : String → String → List String) (dn : Option Nat) :
    ∀ (acts : List Activity) (acc : List DupEntry),
      ∃ ext, (cfdScanActs ek dn acts acc).2.1 = acc ++ ext := by
  intro acts
  induction acts with
  | nil => intro acc; exact ⟨[], by simp [cfdScanActs]⟩
  | cons a rest ih =>
    intro acc
    unfold cfdScanActs
    split
    · exact ih acc
    · obtain ⟨ext, hext⟩ := ih (acc ++ [cfdEntry ek dn a])
      exact ⟨cfdEntry ek dn a :: ext, by simp [hext]⟩

/-- Helper: day-level version of `cfdScanActs_acc`. -/
theorem cfdScanDays_acc (ek : String → String → List String) :
    ∀ (t : Trip) (acc : List DupEntry),
      ∃ ext, (cfdScanDays ek t acc).2.1 = acc ++ ext := by
  intro t
  induction t with
  | nil => intro acc; exact ⟨[], by simp [cfdScanDays]⟩
  | cons d days ih =>
    intro acc
    unfold cfdScanDays
    obtain ⟨ext1, hext1⟩ := cfdScanActs_acc ek d.day d.activities acc
    obtain ⟨ext2, hext2⟩ := ih (cfdScanActs ek d.day d.activities acc).2.1
    exact ⟨ext1 ++ ext2, by rw [hext2, hext1, List.append_assoc]⟩

/-- Helper: every report of the activity scan arises from a pair of entries
of the final `all_locations` list in which the cited entry strictly
precedes the reporting one. -/
theorem cfdScanActs_reports (ek : String → String → List String) (dn : Option Nat) :
    ∀ (acts : List Activity) (acc : List DupEntry) (rep : DupReport),
      rep ∈ (cfdScanActs ek dn acts acc).1 →
        ∃ l1 e1 l2 e2 l3, (cfdScanActs ek dn acts acc).2.1 = l1 ++ e1 :: l2 ++ e2 :: l3 ∧
          rep ∈ reportsAgainst e1 e2 := by
  intro acts
  induction acts with
  | nil => intro acc rep h; cases h
  | cons a rest ih =>
    intro acc rep h
    unfold cfdScanActs at h ⊢
    split at h
    · rename_i hlod
      simp only [hlod, if_true]
      exact ih acc rep h
    · rename_i hlodging
      simp only [List.mem_append] at h
      rcases h with h | h
      · obtain ⟨e1, he1, hrep⟩ := List.exists_of_mem_flatMap h
        obtain ⟨p, q, hacc⟩ := List.mem_iff_append.mp he1
        obtain ⟨ext, hext⟩ := cfdScanActs_acc ek dn rest (acc ++ [cfdEntry ek dn a])
        refine ⟨p, e1, q, cfdEntry ek dn a, ext, ?_, hrep⟩
        simp only [hlodging, Bool.false_eq_true, if_false]
        rw [hext, hacc]
        simp
      · obtain ⟨l1, e1, l2, e2, l3, hsplit, hrep⟩ := ih (acc ++ [cfdEntry ek dn a]) rep h
        refine ⟨l1, e1, l2, e2, l3, ?_, hrep⟩
        simp only [hlodging, Bool.false_eq_true, if_false]
        exact hsplit

/-- Helper: day-level version of `cfdScanActs_reports`. -/
theorem cfdScanDays_reports (ek : String → String → List String) :
    ∀ (t : Trip) (acc : List DupEntry) (rep : DupReport),
      rep ∈ (cfdScanDays ek t acc).1 →
        ∃ l1 e1 l2 e2 l3, (cfdScanDays ek t acc).2.1 = l1 ++ e1 :: l2 ++ e2 :: l3 ∧
          rep ∈ reportsAgainst e1 e2 := by
  intro t
  induction t with
  | nil => intro acc rep h; cases h
  | cons d days ih =>
    intro acc rep h
    unfold cfdScanDays at h ⊢
    simp only [List.mem_append] at h
    rcases h with h | h
    · obtain ⟨l1, e1, l2, e2, l3, hsplit, hrep⟩ :=
        cfdScanActs_reports ek d.day d.activities acc rep h
      obtain ⟨ext, hext⟩ := cfdScanDays_acc ek days (cfdScanActs ek d.day d.activities acc).2.1
      refine ⟨l1, e1, l2, e2, l3 ++ ext, ?_, hrep⟩
      rw [hext, hsplit]
      simp
    · exact ih (cfdScanActs ek d.day d.activities acc).2.1 rep h

/-- Helper: day-level version of `cfdScanActs_traversal`. -/
theorem cfdScanDays_traversal (ek : String → String → List String) :
    ∀ (t : Trip) (acc : List DupEntry), (cfdScanDays ek t acc).2.2 = t := by
  intro t
  induction t with
  | nil => intro acc; rfl
  | cons d days ih =>
    intro acc
    unfold cfdScanDays
    show ({ d with activities := (cfdScanActs ek d.day d.activities acc).2.2 } ::
      (cfdScanDays ek days _).2.2) = d :: days
    rw [cfdScanActs_traversal ek d.day d.activities acc, ih]

/-- C10: `check_final_duplicates` is read-only — its traversal returns every
day and every activity of the input itinerary unchanged — and every report
it emits cites a genuinely earlier activity: the report arises from a pair
of registered entries in which the cited entry strictly precedes the
reporting one in day-then-activity order, the report's `existingDay` is the
cited (earlier) entry's day, and its `day`/`title` describe the later,
reporting activity. -/
theorem check_final_duplicates_read_only :
    (∀ (ek : String → String → List String) (t : Trip),
      checkFinalDuplicatesTraversal ek t = t) ∧
    (∀ (ek : String → String → List String) (t : Trip) (rep : DupReport),
      rep ∈ checkFinalDuplicates ek t →
        ∃ l1 e1 l2 e2 l3, (cfdScanDays ek t []).2.1 = l1 ++ e1 :: l2 ++ e2 :: l3 ∧
          rep ∈ reportsAgainst e1 e2 ∧
          rep.existingDay = e1.day ∧ rep.day = e2.day ∧ rep.title = e2.title) := by
  constructor
  · intro ek t
    unfold checkFinalDuplicatesTraversal
    exact cfdScanDays_traversal ek t []
  · intro ek t rep h
    obtain ⟨l1, e1, l2, e2, l3, hsplit, hrep⟩ := cfdScanDays_reports ek t [] rep h
    obtain ⟨hf1, hf2, hf3⟩ := reportsAgainst_fields e1 e2 rep hrep
    exact ⟨l1, e1, l2, e2, l3, hsplit, hrep, hf1, hf2, hf3⟩

/-- C10 witness: on a two-day itinerary repeating the same activity title,
the single emitted report cites Day 1 from Day 2 and the pair of entries it
arose from sits in processing order. -/
theorem check_final_duplicates_read_only_witness :
    ∃ l1 e1 l2 e2 l3,
      (cfdScanDays (fun ttl _ => [ttl])
          [{ day := some 1, activities := [{ title := "해운대 산책", location := "해운대" }] },
            { day := some 2, activities := [{ title := "해운대 산책", location := "광안리" }] }]
          []).2.1 = l1 ++ e1 :: l2 ++ e2 :: l3 ∧
        ({ day := some 2, title := "해운대 산책", existingDay := some 1,
            keyword := none } : DupReport) ∈ reportsAgainst e1 e2 ∧
        ({ day := some 2, title := "해운대 산책", existingDay := some 1,
            keyword := none } : DupReport).existingDay = e1.day ∧
        ({ day := some 2, title := "해운대 산책", existingDay := some 1,
            keyword := none } : DupReport).day = e2.day ∧
        ({ day := some 2, title := "해운대 산책", existingDay := some 1,
            keyword := none } : DupReport).title = e2.title :=
  check_final_duplicates_read_only.2 (fun ttl _ => [ttl])
    [{ day := some 1, activities := [{ title := "해운대 산책", location := "해운대" }] },
      { day := some 2, activities := [{ title := "해운대 산책", location := "광안리" }] }]
    { day := some 2, title := "해운대 산책", existingDay := some 1, keyword := none }
    (by decide)

/-! ### C6: the verify-and-repair pipeline is not idempotent -/

/-- The basic normalization key `_extract_location_keywords` always adds for
each field: `''.join(text.lower().split())` (main.py 1224-1225). -/
def normalizedKey (text : String) : String :=
  String.join (pySplit (pyLower text))

/-- Helper: when every transport call raises, the keyword loop finds
nothing. -/
theorem findSearchResult_of_error (apiKey : Option String)
    (transport : String → Except String (List PlaceDoc)) (e : String)
    (htr : ∀ s, transport s = Except.error e) (region title : String) :
    ∀ kws, findSearchResult apiKey transport region title kws = none := by
  have hsp : ∀ kw, searchPlace apiKey transport kw region = SearchOutcome.noKey ∨
      searchPlace apiKey transport kw region = SearchOutcome.transErr e := by
    intro kw
    cases apiKey with
    | none => exact Or.inl rfl
    | some k =>
      refine Or.inr ?_
      unfold searchPlace
      rw [htr]
  intro kws
  induction kws with
  | nil => rfl
  | cons kw rest ih =>
    unfold findSearchResult
    split
    · exact ih
    · rcases hsp kw with h | h <;> rw [h] <;> exact ih

/-- Helper: the failure branch of `verify_and_enrich_location`
(main.py 1036-1043) spelled out. -/
theorem verify_failure_eq (apiKey : Option String)
    (transport : String → Except String (List PlaceDoc)) (region : String)
    (kws : List String) (a : Activity)
    (h : findSearchResult apiKey transport region a.title kws = none) :
    verifyAndEnrichLocation apiKey transport region kws a =
      { a with
        verified := some false
        location := "⚠️ " ++ a.location ++ " (검증되지 않은 주소)"
        real_address := some "검증되지 않은 주소입니다" } := by
  unfold verifyAndEnrichLocation
  rw [h]

/-- C6 (counterexample): running the pipeline a second time on its own
output does not return the itinerary unchanged.  The lookup transport
always fails, so the single activity (`title = "테스트"`, empty location)
ends `Unverifiable` with the warning marker prepended; the second run
re-processes it and prepends the marker again.  The keyword-builder
argument reproduces what main.py 955-991 builds for exactly these inputs
(first run: `["테스트"]`; second run: the marked location is judged a real
place name by `_is_real_place_name` and precedes the title), and the
key-extractor argument reproduces `_extract_location_keywords` on them
(no suffix pattern, alias or same-spot table entry fires on these strings,
leaving just the two whitespace-stripped lowercased normalizations). -/
theorem verify_and_repair_not_idempotent_counterexample :
    verifyAndEnrichTripData (some "KEY") (fun _ => Except.error "down")
        (fun ttl loc => if loc = "" then [ttl] else [loc, ttl])
        (fun _ => none)
        (fun ttl loc => [normalizedKey ttl, normalizedKey loc])
        (fun _ _ => none) "부산"
        (verifyAndEnrichTripData (some "KEY") (fun _ => Except.error "down")
          (fun ttl loc => if loc = "" then [ttl] else [loc, ttl])
          (fun _ => none)
          (fun ttl loc => [normalizedKey ttl, normalizedKey loc])
          (fun _ _ => none) "부산"
          [{ day := some 1, activities := [{ title := "테스트", location := "" }] }]) ≠
      verifyAndEnrichTripData (some "KEY") (fun _ => Except.error "down")
        (fun ttl loc => if loc = "" then [ttl] else [loc, ttl])
        (fun _ => none)
        (fun ttl loc => [normalizedKey ttl, normalizedKey loc])
        (fun _ _ => none) "부산"
        [{ day := some 1, activities := [{ title := "테스트", location := "" }] }] := by
  decide

/-- C6 (amended): the pipeline is not idempotent — a second run over an
activity that remains unverifiable prepends the warning marker to the
`location` again, so the activity (and hence the itinerary) changes on
every run; what does hold is that the second run never un-marks or
fabricates: the activity stays `Unverifiable` and its location still
carries the warning marker, never an invented address. -/
theorem rerun_prepends_marker_again (apiKey : Option String)
    (transport : String → Except String (List PlaceDoc)) (e : String)
    (htr : ∀ s, transport s = Except.error e)
    (region1 region2 : String) (kws1 kws2 : List String) (a : Activity) :
    (verifyAndEnrichLocation apiKey transport region1 kws1 a).verified = some false ∧
    (verifyAndEnrichLocation apiKey transport region2 kws2
        (verifyAndEnrichLocation apiKey transport region1 kws1 a)).verified = some false ∧
    (verifyAndEnrichLocation apiKey transport region2 kws2
        (verifyAndEnrichLocation apiKey transport region1 kws1 a)).location =
      "⚠️ " ++ (verifyAndEnrichLocation apiKey transport region1 kws1 a).location ++
        " (검증되지 않은 주소)" ∧
    (verifyAndEnrichLocation apiKey transport region2 kws2
        (verifyAndEnrichLocation apiKey transport region1 kws1 a)).location ≠
      (verifyAndEnrichLocation apiKey transport region1 kws1 a).location := by
  have h1 := verify_failure_eq apiKey transport region1 kws1 a
    (findSearchResult_of_error apiKey transport e htr region1 a.title kws1)
  have h2 := verify_failure_eq apiKey transport region2 kws2
    (verifyAndEnrichLocation apiKey transport region1 kws1 a)
    (findSearchResult_of_error apiKey transport e htr region2 _ kws2)
  refine ⟨by rw [h1], by rw [h2], by rw [h2], ?_⟩
  rw [h2]
  intro heq
  have hlen := congrArg String.length heq
  rw [String.length_append, String.length_append] at hlen
  have hm : ("⚠️ " : String).length = 3 := by decide
  have hs : (" (검증되지 않은 주소)" : String).length = 13 := by decide
  omega

/-- C6 witness: the amended theorem applied to a concrete activity with a
failing transport. -/
theorem rerun_prepends_marker_again_witness :
    (verifyAndEnrichLocation (some "KEY") (fun _ => Except.error "down") "부산"
        ["테스트"] { title := "테스트", location := "" }).verified = some false ∧
    (verifyAndEnrichLocation (some "KEY") (fun _ => Except.error "down") "부산" ["테스트"]
        (verifyAndEnrichLocation (some "KEY") (fun _ => Except.error "down") "부산"
          ["테스트"] { title := "테스트", location := "" })).verified = some false ∧
    (verifyAndEnrichLocation (some "KEY") (fun _ => Except.error "down") "부산" ["테스트"]
        (verifyAndEnrichLocation (some "KEY") (fun _ => Except.error "down") "부산"
          ["테스트"] { title := "테스트", location := "" })).location =
      "⚠️ " ++ (verifyAndEnrichLocation (some "KEY") (fun _ => Except.error "down") "부산"
          ["테스트"] { title := "테스트", location := "" }).location ++
        " (검증되지 않은 주소)" ∧
    (verifyAndEnrichLocation (some "KEY") (fun _ => Except.error "down") "부산" ["테스트"]
        (verifyAndEnrichLocation (some "KEY") (fun _ => Except.error "down") "부산"
          ["테스트"] { title := "테스트", location := "" })).location ≠
      (verifyAndEnrichLocation (some "KEY") (fun _ => Except.error "down") "부산"
        ["테스트"] { title := "테스트", location := "" }).location :=
  rerun_prepends_marker_again (some "KEY") (fun _ => Except.error "down") "down"
    (fun _ => rfl) "부산" "부산" ["테스트"] ["테스트"]
    { title := "테스트", location := "" }

end Planner
